import Mathlib

/-!
Verification development for the Govee remote integration
(`uc_intg_govee`: `client.py`, `remote.py`, `setup.py`).

The Python sources are shallowly embedded: dictionaries become
structures with `Option` fields (a missing key is `none`), Python
strings are Lean `String`s manipulated through structural functions on
their character lists (so that everything evaluates by `decide`/`rfl`),
`time.time()` values are rationals, and the external Govee HTTP client
is an oracle `ClientCall → ClientOutcome`.  All stateful dispatcher
code (`GoveeRemote`) is modelled by explicit state passing of a
`RemoteState`, returning the boolean result, the new state and the
list of client calls that were issued.
-/

namespace Govee

/-! ### Character-list string primitives

Python string operations used by the sources, implemented structurally
on `List Char` so that the kernel can evaluate them. -/

/-- `sub in s` for Python strings (substring containment). -/
def hasInfix (sub : List Char) : List Char → Bool
  | [] => sub.isEmpty
  | c :: rest => sub.isPrefixOf (c :: rest) || hasInfix sub rest

/-- Python `s.startswith(pre)`. -/
def pyStartsWith (s pre : String) : Bool :=
  pre.data.isPrefixOf s.data

/-- Python slicing `s[n:]` (by characters). -/
def pyDrop (s : String) (n : Nat) : String :=
  ⟨s.data.drop n⟩

/-- Python slicing `s[:n]` (by characters). -/
def pyTake (s : String) (n : Nat) : String :=
  ⟨s.data.take n⟩

/-- Python `len(s)` (in characters). -/
def pyLen (s : String) : Nat :=
  s.data.length

/-- Python `s.upper()` (ASCII letters, as in the identifiers involved). -/
def pyUpper (s : String) : String :=
  ⟨s.data.map Char.toUpper⟩

/-- Python `s.lower()` (ASCII letters). -/
def pyLower (s : String) : String :=
  ⟨s.data.map Char.toLower⟩

/-- Python `s + t`. -/
def sApp (a b : String) : String :=
  ⟨a.data ++ b.data⟩

/-- One step of Python `s.replace(sub, repl)` on character lists:
replaces every (leftmost, non-overlapping) occurrence of `sub`. -/
def replaceL (sub repl : List Char) : List Char → List Char
  | [] => []
  | c :: rest =>
      if h : sub ≠ [] ∧ sub.isPrefixOf (c :: rest) then
        repl ++ replaceL sub repl ((c :: rest).drop sub.length)
      else
        c :: replaceL sub repl rest
termination_by s => s.length
decreasing_by
  · simp only [List.length_drop, List.length_cons]
    have hlen : 0 < sub.length := List.length_pos.mpr h.1
    omega
  · simp

/-- Python `s.replace(sub, repl)`. -/
def pyReplace (s sub repl : String) : String :=
  ⟨replaceL sub.data repl.data s.data⟩

/-- Python `str.title()` on character lists: a cased character that
follows a cased character is lowered, otherwise it is uppered. -/
def titleL : Bool → List Char → List Char
  | _, [] => []
  | prev, c :: rest =>
      (if c.isAlpha then (if prev then c.toLower else c.toUpper) else c)
        :: titleL c.isAlpha rest

/-- Python `s.title()`. -/
def pyTitle (s : String) : String :=
  ⟨titleL false s.data⟩

/-- Python `s.split("_")`. -/
def splitUS : List Char → List (List Char)
  | [] => [[]]
  | c :: rest =>
      match splitUS rest with
      | [] => [[c]]
      | g :: gs => if c = '_' then [] :: g :: gs else (c :: g) :: gs

/-- Python `s.isdigit()` (nonempty and all decimal digits). -/
def pyIsDigit (l : List Char) : Bool :=
  !l.isEmpty && l.all Char.isDigit

/-- Python `int(s)` for a decimal digit string. -/
def digitsToInt (l : List Char) : Int :=
  (l.foldl (fun acc c => acc * 10 + (c.toNat - 48)) 0 : Nat)

/-- Truthiness of an optional Python string (`None` and `""` are falsy). -/
def optStrTruthy : Option String → Bool
  | none => false
  | some s => !s.data.isEmpty

/-- Truthiness of an optional Python bool (`None` is falsy). -/
def optB (o : Option Bool) : Bool :=
  o.getD false

/-! ### `remote.py`: `GoveeRemote._clean_command_name`

```
cleaned = "".join(c if c.isalnum() else "_" for c in name.upper())
while "__" in cleaned:
    cleaned = cleaned.replace("__", "_")
return cleaned.strip("_")
```

The `while` loop halves every run of underscores until none of length
two remains, i.e. it collapses every run to a single underscore; it is
embedded as the structural `squeezeU` computing that fixpoint. -/

/-- `c if c.isalnum() else "_"`. -/
def underscoreNonAlnum (c : Char) : Char :=
  if c.isAlphanum then c else '_'

/-- Collapse every run of underscores to a single underscore (the
fixpoint of `cleaned.replace("__", "_")`). -/
def squeezeU : List Char → List Char
  | [] => []
  | [c] => [c]
  | a :: b :: rest =>
      if a = '_' ∧ b = '_' then squeezeU (b :: rest)
      else a :: squeezeU (b :: rest)

/-- Python `s.strip("_")`. -/
def pyStripUS (l : List Char) : List Char :=
  ((l.dropWhile (fun c => c == '_')).reverse.dropWhile (fun c => c == '_')).reverse

/-- `GoveeRemote._clean_command_name`. -/
def clean_command_name (name : String) : String :=
  ⟨pyStripUS (squeezeU ((name.data.map Char.toUpper).map underscoreNonAlnum))⟩

/-! ### `client.py`: capability descriptors and `GoveeDevice` accessors

A vendor capability descriptor is a JSON dictionary; the fields the
code reads are embedded as `Option`-valued record fields (a missing
dictionary key is `none`). -/

/-- The `{"min": …, "max": …}` sub-dictionary of a range descriptor. -/
structure RangeInfo where
  min : Option Int
  max : Option Int
deriving DecidableEq

/-- One entry of a `parameters.fields` list. -/
structure FieldEntry where
  fieldName : Option String
  range : Option RangeInfo
deriving DecidableEq

/-- The `parameters` sub-dictionary of a capability descriptor. -/
structure CapParameters where
  range : Option RangeInfo
  fields : Option (List FieldEntry)
deriving DecidableEq

/-- A vendor capability descriptor (`{"type": …, "instance": …, "parameters": …}`). -/
structure Capability where
  type_ : Option String
  inst : Option String
  parameters : Option CapParameters
deriving DecidableEq

/-- `GoveeDevice.get_capability`: the first descriptor whose `type` and
`instance` both match. -/
def get_capability (caps : List Capability) (t i : String) : Option Capability :=
  caps.find? (fun cap => cap.type_ == some t && cap.inst == some i)

/-- `GoveeDevice.get_brightness_range`. -/
def get_brightness_range (caps : List Capability) : Int × Int :=
  match get_capability caps "devices.capabilities.range" "brightness" with
  | some cap =>
      match cap.parameters with
      | some p =>
          let range_info := p.range.getD ⟨none, none⟩
          (range_info.min.getD 1, range_info.max.getD 100)
      | none => (1, 100)
  | none => (1, 100)

/-- `GoveeDevice.get_color_temp_range`. -/
def get_color_temp_range (caps : List Capability) : Int × Int :=
  match get_capability caps "devices.capabilities.color_setting" "colorTemperatureK" with
  | some cap =>
      match cap.parameters with
      | some p =>
          let range_info := p.range.getD ⟨none, none⟩
          (range_info.min.getD 2000, range_info.max.getD 9000)
      | none => (2000, 9000)
  | none => (2000, 9000)

/-- Second half of `GoveeDevice.get_temperature_range`: the generic
`range/temperature` descriptor, else the default `(20, 100)`. -/
def temp_range_fallback (caps : List Capability) : Int × Int :=
  match get_capability caps "devices.capabilities.range" "temperature" with
  | some cap =>
      match cap.parameters with
      | some p =>
          let range_info := p.range.getD ⟨none, none⟩
          (range_info.min.getD 20, range_info.max.getD 100)
      | none => (20, 100)
  | none => (20, 100)

/-- `GoveeDevice.get_temperature_range`: first the
`temperature_setting/sliderTemperature` descriptor's `temperature`
field, then the generic fallback. -/
def get_temperature_range (caps : List Capability) : Int × Int :=
  match get_capability caps "devices.capabilities.temperature_setting" "sliderTemperature" with
  | some cap =>
      match cap.parameters with
      | some p =>
          match p.fields with
          | some fields =>
              match fields.find? (fun fld => fld.fieldName == some "temperature" && fld.range.isSome) with
              | some fld =>
                  let range_info := fld.range.getD ⟨none, none⟩
                  (range_info.min.getD 20, range_info.max.getD 100)
              | none => temp_range_fallback caps
          | none => temp_range_fallback caps
      | none => temp_range_fallback caps
  | none => temp_range_fallback caps

/-! ### `client.py`: `GoveeDevice._determine_device_type` -/

/-- The vendor-API-type direct mapping table of `_determine_device_type`. -/
def type_mapping : List (String × String) :=
  [("devices.types.light", "light"),
   ("devices.types.switch", "switch"),
   ("devices.types.socket", "socket"),
   ("devices.types.kettle", "kettle"),
   ("devices.types.humidifier", "humidifier"),
   ("devices.types.air_purifier", "air_purifier"),
   ("devices.types.heater", "heater"),
   ("devices.types.thermometer", "thermometer"),
   ("devices.types.air_quality_monitor", "sensor"),
   ("devices.types.fan", "fan"),
   ("devices.types.dehumidifier", "dehumidifier"),
   ("devices.types.ice_maker", "ice_maker"),
   ("devices.types.aroma_diffuser", "aroma_diffuser")]

/-- `GoveeDevice._determine_device_type` as a function of the identity
and the derived capability flags it reads (`if self.api_type:` guards
the table lookup, so an empty tag falls through to the heuristic). -/
def determine_device_type (sku api_type : String)
    (supports_color supports_brightness supports_work_mode
     supports_temperature supports_power : Bool) : String :=
  if sku ∈ (["H6603", "H6604", "H8604"] : List String) then "sync_box"
  else
    match (if api_type ≠ "" then type_mapping.lookup api_type else none) with
    | some mapped_type => mapped_type
    | none =>
        if supports_color || supports_brightness then "light"
        else if supports_work_mode || supports_temperature then "appliance"
        else if supports_power then "switch"
        else "sensor"

/-- Classification as worded by the specification: SKU allow-list,
then the api-type direct mapping table, then the capability heuristic. -/
def classify_spec (sku api_type : String)
    (supports_color supports_brightness supports_work_mode
     supports_temperature supports_power : Bool) : String :=
  if sku ∈ (["H6603", "H6604", "H8604"] : List String) then "sync_box"
  else
    match type_mapping.lookup api_type with
    | some mapped_type => mapped_type
    | none =>
        if supports_color || supports_brightness then "light"
        else if supports_work_mode || supports_temperature then "appliance"
        else if supports_power then "switch"
        else "sensor"

/-- The fixed device-type tags of the data model (§3 of the spec). -/
def device_type_tags : List String :=
  ["sync_box", "light", "switch", "socket", "kettle", "humidifier",
   "air_purifier", "heater", "thermometer", "sensor", "fan",
   "dehumidifier", "ice_maker", "aroma_diffuser", "appliance"]

/-! ### `setup.py`: error classification of `_test_govee_connection`

```
except GoveeAPIError as e:
    if e.code == 401:   AUTHORIZATION_ERROR
    elif e.code == 429: OTHER
    else:               CONNECTION_REFUSED
except Exception:       OTHER
```
-/

/-- The `ucapi.IntegrationSetupError` values this integration uses. -/
inductive SetupErrorKind where
  | other
  | connectionRefused
  | authorizationError
deriving DecidableEq

/-- What failed while testing the connection or listing devices. -/
inductive SetupFailure where
  | apiError (code : Option Int)
  | unexpected
deriving DecidableEq

/-- The error kind the `except` blocks of `_test_govee_connection`
surface for an exception that reaches them.  Only exceptions raised
during device listing (`get_devices`) reach these blocks: the
connection test never raises (see `test_connection` below). -/
def classify_setup_error : SetupFailure → SetupErrorKind
  | .apiError code =>
      if code = some 401 then .authorizationError
      else if code = some 429 then .other
      else .connectionRefused
  | .unexpected => .other

/-- Outcome of one client request made during setup: it succeeded, it
raised a `GoveeAPIError` (with its optional code), or it raised some
other exception. -/
inductive RequestOutcome where
  | success
  | apiError (code : Option Int)
  | unexpected
deriving DecidableEq

/-- `GoveeClient.test_connection` (client.py lines 452–461): it
catches every `GoveeAPIError` and every other exception and returns
`False`, so the caller never sees the cause. -/
def test_connection : RequestOutcome → Bool
  | .success => true
  | .apiError _ => false
  | .unexpected => false

/-- The error `GoveeSetup._test_govee_connection` surfaces (`none`
means setup proceeds past connection testing and device listing),
as a function of what the connection-test request and the
device-listing request did.  A failed `test_connection` returns
`SetupError(CONNECTION_REFUSED)` directly (setup.py lines 86–88);
only exceptions raised while listing devices reach the `except`
blocks (setup.py lines 104–115). -/
def test_govee_connection_error (testing listing : RequestOutcome) :
    Option SetupErrorKind :=
  if test_connection testing = false then
    some .connectionRefused
  else
    match listing with
    | .success => none
    | .apiError code => some (classify_setup_error (.apiError code))
    | .unexpected => some (classify_setup_error .unexpected)

/-! ### `remote.py`: the device registry

One record of `config.devices` (the persisted projection built by
`setup.py`).  Every scalar key the dispatcher reads with `.get` is an
`Option` field (a missing key is `none`); the list-valued keys are
always read with `.get(key, [])`, so a plain list models them. -/

/-- An entry of `work_modes` / `music_modes` / `scenes`. -/
structure ModeEntry where
  name : Option String
  value : Option Int
  inst : Option String
deriving DecidableEq

/-- One persisted device record of the registry. -/
structure DeviceInfo where
  name : Option String
  type_ : Option String
  api_type : Option String
  sku : Option String
  capabilities : List Capability
  supports_power : Option Bool
  supports_brightness : Option Bool
  supports_color : Option Bool
  supports_temperature : Option Bool
  supports_work_mode : Option Bool
  supports_scenes : Option Bool
  supports_music : Option Bool
  supports_dreamview : Option Bool
  supports_gradient : Option Bool
  temperature_range : Option (Int × Int)
  music_modes : List ModeEntry
  work_modes : List ModeEntry
  scenes : List ModeEntry
deriving DecidableEq

/-- The registry (`self._discovered_devices`), a Python dict in
insertion order. -/
abbrev Registry := List (String × DeviceInfo)

/-! ### `remote.py`: the external client boundary

A call into `GoveeClient`; the arguments are the ones the dispatcher
passes to the named client method (the device is identified by its
id). -/

inductive ClientCall where
  | turnOn (device_id : String)
  | turnOff (device_id : String)
  | setBrightness (device_id : String) (brightness : Int)
  | setColorRgb (device_id : String) (rgb : Int)
  | setTemperature (device_id : String) (temperature : Int)
  | setWorkMode (device_id : String) (inst : String) (mode_value : Int)
  | setScene (device_id : String) (inst : String) (scene_value : Int)
  | setGradient (device_id : String) (enabled : Bool)
  | setDreamview (device_id : String) (enabled : Bool)
  | setMusicMode (device_id : String) (mode : Int) (sensitivity : Int)
deriving DecidableEq

/-- Outcome of one client call: a boolean result, or a raised
exception (caught by the dispatcher's `try`/`except` blocks). -/
inductive ClientOutcome where
  | ok (result : Bool)
  | exn
deriving DecidableEq

/-- The external client as an oracle. -/
abbrev Client := ClientCall → ClientOutcome

/-! ### `remote.py`: dispatcher state and throttling -/

/-- The dispatcher's mutable maps (`__init__`: `_device_throttle = {}`,
`_global_throttle = 0`, `_device_states = {}`). -/
structure RemoteState where
  device_throttle : List (String × ℚ)
  global_throttle : ℚ
  device_states : List (String × Bool)
deriving DecidableEq

/-- The state right after `GoveeRemote.__init__`. -/
def initRemoteState : RemoteState :=
  { device_throttle := [], global_throttle := 0, device_states := [] }

/-- Python dict assignment `m[k] = v` (overwrite in place or append). -/
def updA {β : Type} : List (String × β) → String → β → List (String × β)
  | [], k, v => [(k, v)]
  | (k', v') :: rest, k, v =>
      if k' = k then (k, v) :: rest else (k', v') :: updA rest k v

/-- `GoveeRemote._check_throttle` (time in seconds as a rational):
returns whether the send is allowed, and the updated throttle state. -/
def check_throttle (now : ℚ) (device_id : String) (st : RemoteState) :
    Bool × RemoteState :=
  if now - st.global_throttle < 0.1 then (false, st)
  else
    let last_time := (st.device_throttle.lookup device_id).getD 0
    if now - last_time < 0.3 then (false, st)
    else
      (true, { st with global_throttle := now,
                       device_throttle := updA st.device_throttle device_id now })

/-! ### `remote.py`: `_map_ui_action_to_govee_action` -/

/-- `GoveeRemote._map_ui_action_to_govee_action`: action-suffix table
with capability gating; `None` when unknown or not permitted. -/
def map_ui_action_to_govee_action (ui_action : String) (device_info : DeviceInfo) :
    Option String :=
  if ui_action = "ON" then
    if optB device_info.supports_power then some "turn_on" else none
  else if ui_action = "OFF" then
    if optB device_info.supports_power then some "turn_off" else none
  else if ui_action = "TOGGLE" then
    if optB device_info.supports_power then some "toggle" else none
  else if ui_action = "DREAMVIEW_ON" then
    if optB device_info.supports_dreamview then some "dreamview_on" else none
  else if ui_action = "DREAMVIEW_OFF" then
    if optB device_info.supports_dreamview then some "dreamview_off" else none
  else if ui_action = "GRADIENT_ON" then
    if optB device_info.supports_gradient then some "gradient_on" else none
  else if ui_action = "GRADIENT_OFF" then
    if optB device_info.supports_gradient then some "gradient_off" else none
  else if pyStartsWith ui_action "MUSIC_" then
    if optB device_info.supports_music then some (pyLower ui_action) else none
  else if ui_action = "SENSITIVITY_UP" ∨ ui_action = "SENSITIVITY_DOWN" then
    if optB device_info.supports_music then some (pyLower ui_action) else none
  else if pyStartsWith ui_action "BRIGHTNESS_" then
    if !optB device_info.supports_brightness then none
    else if ui_action = "BRIGHTNESS_UP" then some "brightness_up"
    else if ui_action = "BRIGHTNESS_DOWN" then some "brightness_down"
    else if ui_action ∈ (["BRIGHTNESS_25", "BRIGHTNESS_50",
                          "BRIGHTNESS_75", "BRIGHTNESS_100"] : List String) then
      some (pyLower ui_action)
    else none
  else if pyStartsWith ui_action "COLOR_" then
    if !optB device_info.supports_color then none else some (pyLower ui_action)
  else if pyStartsWith ui_action "TEMP_" then
    if !optB device_info.supports_temperature then none
    else if ui_action = "TEMP_UP" then some "temp_up"
    else if ui_action = "TEMP_DOWN" then some "temp_down"
    else some (pyLower ui_action)
  else if pyStartsWith ui_action "MODE_" then
    if !optB device_info.supports_work_mode then none else some (pyLower ui_action)
  else if pyStartsWith ui_action "SCENE_" then
    if !optB device_info.supports_scenes then none else some (pyLower ui_action)
  else none

/-! ### `remote.py`: `_execute_mapped_action` -/

/-- The fixed RGB table of the `color_` branch. -/
def color_map : List (String × Int) :=
  [("red", 16711680), ("green", 65280), ("blue", 255),
   ("white", 16777215), ("warm", 16753920), ("cool", 11593983)]

/-- The hardcoded kettle work-mode fallback table of the `mode_` branch. -/
def kettle_mode_map : List (String × Int) :=
  [("diy", 1), ("tea", 2), ("coffee", 3), ("boiling", 4)]

/-- A `return await self._client.X(...)` with no cache update, under
the surrounding `try`/`except` (an exception yields `False`). -/
def callPlain (client : Client) (states : List (String × Bool))
    (call : ClientCall) : Bool × List (String × Bool) × List ClientCall :=
  match client call with
  | .ok r => (r, states, [call])
  | .exn => (false, states, [call])

/-- `GoveeRemote._execute_mapped_action` with the power-state cache
passed explicitly; returns the boolean result, the new cache and the
client calls issued.  `device` is the id the built `GoveeDevice`
carries into client calls, `device_id` the (optional) cache key. -/
def execute_mapped_action (client : Client) (device : String) (action : String)
    (device_info : DeviceInfo) (device_id : Option String)
    (states : List (String × Bool)) : Bool × List (String × Bool) × List ClientCall :=
  if action = "turn_on" then
    match client (.turnOn device) with
    | .ok r =>
        (r, if r && optStrTruthy device_id then updA states (device_id.getD "") true
            else states, [.turnOn device])
    | .exn => (false, states, [.turnOn device])
  else if action = "turn_off" then
    match client (.turnOff device) with
    | .ok r =>
        (r, if r && optStrTruthy device_id then updA states (device_id.getD "") false
            else states, [.turnOff device])
    | .exn => (false, states, [.turnOff device])
  else if action = "toggle" then
    if optStrTruthy device_id then
      let id := device_id.getD ""
      let cached_state := (states.lookup id).getD false
      if cached_state then
        match client (.turnOff device) with
        | .ok r => (r, if r then updA states id false else states, [.turnOff device])
        | .exn => (false, states, [.turnOff device])
      else
        match client (.turnOn device) with
        | .ok r => (r, if r then updA states id true else states, [.turnOn device])
        | .exn => (false, states, [.turnOn device])
    else
      callPlain client states (.turnOn device)
  else if action = "dreamview_on" then
    callPlain client states (.setDreamview device true)
  else if action = "dreamview_off" then
    callPlain client states (.setDreamview device false)
  else if action = "gradient_on" then
    callPlain client states (.setGradient device true)
  else if action = "gradient_off" then
    callPlain client states (.setGradient device false)
  else if pyStartsWith action "music_" then
    let mode_name := pyTitle (pyReplace (pyReplace action "music_" "") "_" " ")
    match device_info.music_modes.find?
        (fun mode => pyLower (mode.name.getD "") == pyLower mode_name) with
    | some mode => callPlain client states (.setMusicMode device (mode.value.getD 1) 50)
    | none => (false, states, [])
  else if action = "sensitivity_up" then
    callPlain client states (.setMusicMode device 1 75)
  else if action = "sensitivity_down" then
    callPlain client states (.setMusicMode device 1 25)
  else if pyStartsWith action "brightness_" then
    let brightness :=
      if hasInfix "up".data action.data then (100 : Int)
      else if hasInfix "down".data action.data then 20
      else ((splitUS action.data).find? pyIsDigit).elim 50 digitsToInt
    callPlain client states (.setBrightness device brightness)
  else if pyStartsWith action "color_" then
    let color_name := pyReplace action "color_" ""
    let rgb_value := (color_map.lookup color_name).getD 16777215
    callPlain client states (.setColorRgb device rgb_value)
  else if pyStartsWith action "temp_" then
    let temperature :=
      if hasInfix "up".data action.data then
        min (device_info.temperature_range.getD (20, 100)).2 90
      else if hasInfix "down".data action.data then
        max (device_info.temperature_range.getD (20, 100)).1 40
      else ((splitUS action.data).find? pyIsDigit).elim 80 digitsToInt
    callPlain client states (.setTemperature device temperature)
  else if pyStartsWith action "mode_" then
    let mode_name := pyTitle (pyReplace (pyReplace action "mode_" "") "_" " ")
    match device_info.work_modes.find?
        (fun mode => pyLower (mode.name.getD "") == pyLower mode_name) with
    | some mode =>
        callPlain client states (.setWorkMode device (mode.inst.getD "") (mode.value.getD 1))
    | none =>
        match kettle_mode_map.lookup (pyLower mode_name) with
        | some mode_value =>
            if mode_value ≠ 0 then
              callPlain client states (.setWorkMode device "workMode" mode_value)
            else (false, states, [])
        | none => (false, states, [])
  else if pyStartsWith action "scene_" then
    let scene_name := pyTitle (pyReplace (pyReplace action "scene_" "") "_" " ")
    match device_info.scenes.find?
        (fun scene => pyLower (scene.name.getD "") == pyLower scene_name) with
    | some scene =>
        callPlain client states (.setScene device (scene.inst.getD "") (scene.value.getD 1))
    | none => (false, states, [])
  else (false, states, [])

/-! ### `remote.py`: `_execute_device_command` and friends -/

/-- The prefix-match loop of `_execute_device_command`: the first
registry entry (in insertion order) whose cleaned name, followed by an
underscore, prefixes the command, together with the action suffix. -/
def resolve_command (command : String) : Registry → Option (String × DeviceInfo × String)
  | [] => none
  | (device_id, device_info) :: rest =>
      let device_name := device_info.name.getD (sApp "Device_" device_id)
      let dpfx := clean_command_name device_name
      if pyStartsWith command (sApp dpfx "_") then
        some (device_id, device_info, pyDrop command (pyLen dpfx + 1))
      else resolve_command command rest

/-- `GoveeRemote._execute_device_command`.  On the first prefix match
the source always returns: swallowed no-op `True` when throttled, the
mapped action's result, or `False` when the suffix does not map. -/
def execute_device_command (client : Client) (now : ℚ) (command : String)
    (registry : Registry) (st : RemoteState) : Bool × RemoteState × List ClientCall :=
  match resolve_command command registry with
  | none => (false, st, [])
  | some (device_id, device_info, action_part) =>
      let res := check_throttle now device_id st
      if !res.1 then (true, res.2, [])
      else
        match map_ui_action_to_govee_action action_part device_info with
        | some govee_action =>
            let out := execute_mapped_action client device_id govee_action device_info
              (some device_id) res.2.device_states
            (out.1, { res.2 with device_states := out.2.1 }, out.2.2)
        | none => (false, res.2, [])

/-- `GoveeRemote._execute_device_action_safe` (used by the global
fan-out): throttle check, registry lookup, then the power action with
cache update on success; exceptions are caught and yield `False`. -/
def execute_device_action_safe (client : Client) (now : ℚ) (device_id action : String)
    (registry : Registry) (st : RemoteState) : Bool × RemoteState × List ClientCall :=
  let res := check_throttle now device_id st
  if !res.1 then (true, res.2, [])
  else
    let st' := res.2
    match registry.lookup device_id with
    | none => (false, st', [])
    | some _ =>
        if action = "turn_on" then
          match client (.turnOn device_id) with
          | .ok r =>
              (r, if r then { st' with device_states := updA st'.device_states device_id true }
                  else st', [.turnOn device_id])
          | .exn => (false, st', [.turnOn device_id])
        else if action = "turn_off" then
          match client (.turnOff device_id) with
          | .ok r =>
              (r, if r then { st' with device_states := updA st'.device_states device_id false }
                  else st', [.turnOff device_id])
          | .exn => (false, st', [.turnOff device_id])
        else if action = "toggle" then
          let cached_state := (st'.device_states.lookup device_id).getD false
          if cached_state then
            match client (.turnOff device_id) with
            | .ok r =>
                (r, if r then { st' with device_states := updA st'.device_states device_id false }
                    else st', [.turnOff device_id])
            | .exn => (false, st', [.turnOff device_id])
          else
            match client (.turnOn device_id) with
            | .ok r =>
                (r, if r then { st' with device_states := updA st'.device_states device_id true }
                    else st', [.turnOn device_id])
            | .exn => (false, st', [.turnOn device_id])
        else (false, st', [])

/-! ### `remote.py`: `_execute_global_command`

The task-building loop pairs every power-capable registry device (in
order) with the power action of the global command.  The concurrent
`asyncio.gather` of the single-threaded cooperative model is embedded
as running the tasks in creation order, each with its own clock
reading, threading the dispatcher state. -/

/-- The `(device, action)` tasks `_execute_global_command` creates:
note `device_info.get("supports_power", True)` (missing key counts as
power-capable), and `continue` for a non-`ALL_ON/OFF/TOGGLE` command. -/
def global_tasks (command : String) (registry : Registry) : List (String × String) :=
  registry.filterMap (fun p =>
    if p.2.supports_power.getD true then
      if command = "ALL_ON" then some (p.1, "turn_on")
      else if command = "ALL_OFF" then some (p.1, "turn_off")
      else if command = "ALL_TOGGLE" then some (p.1, "toggle")
      else none
    else none)

/-- Run the gathered tasks in order; the `i`-th task reads the `i`-th
clock value.  Per-task exceptions are already absorbed inside
`execute_device_action_safe` (`return_exceptions=True` never sees one). -/
def run_global_tasks (client : Client) (registry : Registry) :
    List (String × String) → List ℚ → RemoteState →
    List Bool × RemoteState × List ClientCall
  | [], _, st => ([], st, [])
  | (device_id, action) :: rest, times, st =>
      let out := execute_device_action_safe client (times.headD 0) device_id action registry st
      let next := run_global_tasks client registry rest times.tail out.2.1
      (out.1 :: next.1, next.2.1, out.2.2 ++ next.2.2)

/-- The per-task boolean results the fan-out aggregates over. -/
def global_results (client : Client) (command : String) (registry : Registry)
    (st : RemoteState) (times : List ℚ) : List Bool :=
  (run_global_tasks client registry (global_tasks command registry) times st).1

/-- `GoveeRemote._execute_global_command`:
`success_count = sum(1 for r in results if r is True); return success_count > 0`,
and `False` when no task was created. -/
def execute_global_command (client : Client) (command : String) (registry : Registry)
    (st : RemoteState) (times : List ℚ) : Bool × RemoteState × List ClientCall :=
  let tasks := global_tasks command registry
  if tasks.isEmpty then (false, st, [])
  else
    let out := run_global_tasks client registry tasks times st
    (decide (0 < out.1.count true), out.2.1, out.2.2)

/-- `GoveeRemote._execute_govee_command`: the dispatcher entry point. -/
def execute_govee_command (client : Client) (command : String) (registry : Registry)
    (st : RemoteState) (times : List ℚ) : Bool × RemoteState × List ClientCall :=
  if registry.isEmpty ∨ command = "NO_DEVICES" then (false, st, [])
  else if pyStartsWith command "ALL_" then
    execute_global_command client command registry st times
  else
    execute_device_command client (times.headD 0) command registry st

/-! ### `remote.py`: `_generate_simple_commands` -/

/-- `mode.get("name", "").upper().replace(" ", "_")`. -/
def mode_token_name (m : ModeEntry) : String :=
  pyReplace (pyUpper (m.name.getD "")) " " "_"

/-- The simple-command tokens one registry device contributes, in
append order (lines 59–105 of `remote.py`). -/
def commands_for_device (device_id : String) (device_info : DeviceInfo) : List String :=
  let device_name := device_info.name.getD (sApp "Device_" device_id)
  let clean_name := clean_command_name device_name
  (if optB device_info.supports_power then
    [sApp clean_name "_ON", sApp clean_name "_OFF", sApp clean_name "_TOGGLE"]
   else [])
  ++ (if device_info.type_ = some "sync_box" then
       (if optB device_info.supports_dreamview then
         [sApp clean_name "_DREAMVIEW_ON", sApp clean_name "_DREAMVIEW_OFF"]
        else [])
       ++ (if optB device_info.supports_gradient then
            [sApp clean_name "_GRADIENT_ON", sApp clean_name "_GRADIENT_OFF"]
           else [])
       ++ (if optB device_info.supports_music then
            device_info.music_modes.map
              (fun mode => sApp clean_name (sApp "_MUSIC_" (mode_token_name mode)))
            ++ [sApp clean_name "_SENSITIVITY_UP", sApp clean_name "_SENSITIVITY_DOWN"]
           else [])
      else [])
  ++ (if optB device_info.supports_brightness then
       [sApp clean_name "_BRIGHTNESS_UP", sApp clean_name "_BRIGHTNESS_DOWN",
        sApp clean_name "_BRIGHTNESS_25", sApp clean_name "_BRIGHTNESS_50",
        sApp clean_name "_BRIGHTNESS_75", sApp clean_name "_BRIGHTNESS_100"]
      else [])
  ++ (if optB device_info.supports_color then
       [sApp clean_name "_COLOR_RED", sApp clean_name "_COLOR_GREEN",
        sApp clean_name "_COLOR_BLUE", sApp clean_name "_COLOR_WHITE",
        sApp clean_name "_COLOR_WARM", sApp clean_name "_COLOR_COOL"]
      else [])
  ++ (if optB device_info.supports_temperature then
       [sApp clean_name "_TEMP_UP", sApp clean_name "_TEMP_DOWN",
        sApp clean_name "_TEMP_60", sApp clean_name "_TEMP_70",
        sApp clean_name "_TEMP_80", sApp clean_name "_TEMP_90",
        sApp clean_name "_TEMP_100"]
      else [])
  ++ (if optB device_info.supports_work_mode then
       (device_info.work_modes.take 5).filterMap (fun mode =>
         let mode_name := mode_token_name mode
         if mode_name.data.isEmpty then none
         else some (sApp clean_name (sApp "_MODE_" mode_name)))
      else [])
  ++ (if optB device_info.supports_scenes then
       (device_info.scenes.take 10).filterMap (fun scene =>
         let scene_name := pyReplace (mode_token_name scene) "'" ""
         if scene_name.data.isEmpty then none
         else some (sApp clean_name (sApp "_SCENE_" scene_name)))
      else [])

/-- `GoveeRemote._generate_simple_commands`:
`["NO_DEVICES"]` for an empty registry, else the per-device tokens,
the `ALL_*` tokens when more than one device exists, deduplicated and
sorted (`sorted(list(set(commands)))`). -/
def generate_simple_commands (registry : Registry) : List String :=
  if registry.isEmpty then ["NO_DEVICES"]
  else
    let commands :=
      (registry.map (fun p => commands_for_device p.1 p.2)).flatten
      ++ (if 1 < registry.length then ["ALL_ON", "ALL_OFF", "ALL_TOGGLE"] else [])
    (commands.eraseDups).mergeSort (fun a b => decide (a ≤ b))

/-! ### `remote.py`: UI page generation -/

/-- A grid cell (`ucapi.ui.create_ui_text`): a label, a position, a
size, and an optional bound command. -/
structure UiItem where
  text : String
  x : Nat
  y : Nat
  size : Nat × Nat
  command : Option String
deriving DecidableEq

/-- `create_ui_text(text, x, y, size, cmd)`. -/
def create_ui_text (text : String) (x y : Nat) (size : Nat × Nat)
    (command : Option String) : UiItem :=
  { text := text, x := x, y := y, size := size, command := command }

/-- A UI page (`ucapi.ui.UiPage` plus its added items, in add order). -/
structure UiPage where
  page_id : String
  name : String
  grid : Nat × Nat
  items : List UiItem
deriving DecidableEq

/-- Insert into the SKU grouping (Python dict-of-dicts insertion order). -/
def addToGroup : List (String × Registry) → String → (String × DeviceInfo) →
    List (String × Registry)
  | [], sku, entry => [(sku, [entry])]
  | (s, xs) :: rest, sku, entry =>
      if s = sku then (s, xs ++ [entry]) :: rest
      else (s, xs) :: addToGroup rest sku entry

/-- `GoveeRemote._group_devices_by_sku`. -/
def group_devices_by_sku (registry : Registry) : List (String × Registry) :=
  registry.foldl (fun groups p => addToGroup groups (p.2.sku.getD "Unknown") p) []

/-- The friendly-name table of `_get_sku_display_name`. -/
def type_names : List (String × String) :=
  [("sync_box", "Sync Boxes"), ("kettle", "Kettles"), ("light", "Lights"),
   ("humidifier", "Humidifiers"), ("heater", "Heaters"), ("switch", "Switches"),
   ("socket", "Smart Plugs"), ("sensor", "Sensors"), ("thermometer", "Thermometers")]

/-- `GoveeRemote._get_sku_display_name`. -/
def get_sku_display_name (sku : String) (devices : Registry) : String :=
  let device_type := match devices.head? with
    | some p => p.2.type_.getD ""
    | none => ""
  let friendly_name := (type_names.lookup device_type).getD "Devices"
  let device_count := devices.length
  if 1 < device_count then
    friendly_name ++ " (" ++ sku ++ ") - " ++ toString device_count ++ " devices"
  else
    friendly_name ++ " (" ++ sku ++ ")"

/-- The inner device loop of `_create_device_directory_page`
(`break` once row 6 is reached). -/
def directory_device_rows : Registry → Nat → List UiItem × Nat
  | [], y => ([], y)
  | (device_id, device_info) :: rest, y =>
      if 6 ≤ y then ([], y)
      else
        let device_name := device_info.name.getD ("Device " ++ device_id)
        let display_name := if 18 < pyLen device_name then pyTake device_name 18
                            else device_name
        let item := create_ui_text ("â€¢ " ++ display_name) 0 y (4, 1) none
        let next := directory_device_rows rest (y + 1)
        (item :: next.1, next.2)

/-- The SKU-group loop of `_create_device_directory_page`. -/
def directory_groups : List (String × Registry) → Nat → List UiItem × Nat
  | [], y => ([], y)
  | (sku, devices) :: rest, y =>
      if 6 ≤ y then ([], y)
      else
        let header := create_ui_text (get_sku_display_name sku devices ++ ":") 0 y (4, 1) none
        let devRows := directory_device_rows devices (y + 1)
        let y3 := if devRows.2 < 6 then devRows.2 + 1 else devRows.2
        let next := directory_groups rest y3
        (header :: devRows.1 ++ next.1, next.2)

/-- `GoveeRemote._create_device_directory_page`. -/
def create_device_directory_page (registry : Registry) : UiPage :=
  let title := create_ui_text "Govee Devices" 0 0 (4, 1) none
  let groups := directory_groups (group_devices_by_sku registry) 1
  let allItems :=
    if 1 < registry.length ∧ groups.2 < 5 then
      [create_ui_text "All On" 0 5 (2, 1) (some "ALL_ON"),
       create_ui_text "All Off" 2 5 (2, 1) (some "ALL_OFF")]
    else []
  { page_id := "main", name := "Govee Devices", grid := (4, 6),
    items := title :: groups.1 ++ allItems }

/-- The music-mode button loop of `_add_sync_box_controls`
(up to four modes, all placed on the same row, `break` at row 6). -/
def sync_music_items (clean_name : String) : List ModeEntry → Nat → Nat → List UiItem
  | [], _, _ => []
  | mode :: rest, i, y =>
      if 6 ≤ y then []
      else
        let mode_name := mode.name.getD ("Mode" ++ toString (i + 1))
        let display_name := pyTake mode_name 7
        let cmd := clean_name ++ "_MUSIC_" ++ pyReplace (pyUpper mode_name) " " "_"
        create_ui_text display_name (i % 4) y (1, 1) (some cmd)
          :: sync_music_items clean_name rest (i + 1) y

/-- `GoveeRemote._add_sync_box_controls`: returns the added items and
the next free row. -/
def add_sync_box_controls (device_id : String) (device_info : DeviceInfo)
    (start_y : Nat) : List UiItem × Nat :=
  let device_name := device_info.name.getD ("Device " ++ device_id)
  let clean_name := clean_command_name device_name
  let p0 : List UiItem × Nat :=
    if optB device_info.supports_power then
      ([create_ui_text "On" 0 start_y (1, 1) (some (clean_name ++ "_ON")),
        create_ui_text "Off" 1 start_y (1, 1) (some (clean_name ++ "_OFF")),
        create_ui_text "Toggle" 2 start_y (2, 1) (some (clean_name ++ "_TOGGLE"))],
       start_y + 1)
    else ([], start_y)
  let p1 : List UiItem × Nat :=
    if optB device_info.supports_dreamview then
      (p0.1 ++ [create_ui_text "DreamView" 0 p0.2 (2, 1) (some (clean_name ++ "_DREAMVIEW_ON")),
                create_ui_text "DV Off" 2 p0.2 (2, 1) (some (clean_name ++ "_DREAMVIEW_OFF"))],
       p0.2 + 1)
    else p0
  let p2 : List UiItem × Nat :=
    if optB device_info.supports_gradient then
      (p1.1 ++ [create_ui_text "Gradient" 0 p1.2 (2, 1) (some (clean_name ++ "_GRADIENT_ON")),
                create_ui_text "Grad Off" 2 p1.2 (2, 1) (some (clean_name ++ "_GRADIENT_OFF"))],
       p1.2 + 1)
    else p1
  let p3 : List UiItem × Nat :=
    if optB device_info.supports_music then
      let items := sync_music_items clean_name (device_info.music_modes.take 4) 0 p2.2
      let y := p2.2 + 1
      if y < 6 then
        (p2.1 ++ items
          ++ [create_ui_text "Sens -" 0 y (2, 1) (some (clean_name ++ "_SENSITIVITY_DOWN")),
              create_ui_text "Sens +" 2 y (2, 1) (some (clean_name ++ "_SENSITIVITY_UP"))],
         y + 1)
      else (p2.1 ++ items, y)
    else p2
  let p4 : List UiItem × Nat :=
    if optB device_info.supports_brightness ∧ p3.2 < 5 then
      (p3.1 ++ [create_ui_text "25%" 0 p3.2 (1, 1) (some (clean_name ++ "_BRIGHTNESS_25")),
                create_ui_text "50%" 1 p3.2 (1, 1) (some (clean_name ++ "_BRIGHTNESS_50")),
                create_ui_text "75%" 2 p3.2 (1, 1) (some (clean_name ++ "_BRIGHTNESS_75")),
                create_ui_text "100%" 3 p3.2 (1, 1) (some (clean_name ++ "_BRIGHTNESS_100"))],
       p3.2 + 1)
    else p3
  if optB device_info.supports_color ∧ p4.2 < 5 then
    (p4.1 ++ [create_ui_text "Red" 0 p4.2 (1, 1) (some (clean_name ++ "_COLOR_RED")),
              create_ui_text "Green" 1 p4.2 (1, 1) (some (clean_name ++ "_COLOR_GREEN")),
              create_ui_text "Blue" 2 p4.2 (1, 1) (some (clean_name ++ "_COLOR_BLUE")),
              create_ui_text "White" 3 p4.2 (1, 1) (some (clean_name ++ "_COLOR_WHITE"))],
     p4.2 + 1)
  else p4

/-- The work-mode button loop of `_add_device_controls_to_page`
(four per row, `break` at row 6, row advances after every fourth). -/
def device_mode_items (clean_name : String) : List ModeEntry → Nat → Nat →
    List UiItem × Nat
  | [], _, y => ([], y)
  | mode :: rest, i, y =>
      if 6 ≤ y then ([], y)
      else
        let mode_name := mode.name.getD ("Mode" ++ toString (i + 1))
        let display_name := pyTake mode_name 6
        let cmd := clean_name ++ "_MODE_" ++ pyReplace (pyUpper mode_name) " " "_"
        let item := create_ui_text display_name (i % 4) y (1, 1) (some cmd)
        let y2 := if (i + 1) % 4 = 0 then y + 1 else y
        let next := device_mode_items clean_name rest (i + 1) y2
        (item :: next.1, next.2)

/-- `GoveeRemote._add_device_controls_to_page`. -/
def add_device_controls_to_page (device_id : String) (device_info : DeviceInfo)
    (start_y : Nat) : List UiItem × Nat :=
  let device_name := device_info.name.getD ("Device " ++ device_id)
  let clean_name := clean_command_name device_name
  let p0 : List UiItem × Nat :=
    if optB device_info.supports_power then
      ([create_ui_text "On" 0 start_y (1, 1) (some (clean_name ++ "_ON")),
        create_ui_text "Off" 1 start_y (1, 1) (some (clean_name ++ "_OFF")),
        create_ui_text "Toggle" 2 start_y (2, 1) (some (clean_name ++ "_TOGGLE"))],
       start_y + 1)
    else ([], start_y)
  let p1 : List UiItem × Nat :=
    if optB device_info.supports_temperature then
      let temp_range := device_info.temperature_range.getD (20, 100)
      if 100 ≤ temp_range.2 then
        let presets := ([60, 70, 80, 90] : List Nat).enum.map (fun t =>
          create_ui_text (toString t.2 ++ "Â°") t.1 p0.2 (1, 1)
            (some (clean_name ++ "_TEMP_" ++ toString t.2)))
        (p0.1 ++ presets
          ++ [create_ui_text "Temp -" 0 (p0.2 + 1) (2, 1) (some (clean_name ++ "_TEMP_DOWN")),
              create_ui_text "Temp +" 2 (p0.2 + 1) (2, 1) (some (clean_name ++ "_TEMP_UP"))],
         p0.2 + 2)
      else if 40 ≤ temp_range.2 then
        let presets := ([20, 25, 30, 35] : List Nat).enum.map (fun t =>
          create_ui_text (toString t.2 ++ "Â°") t.1 p0.2 (1, 1)
            (some (clean_name ++ "_TEMP_" ++ toString t.2)))
        (p0.1 ++ presets, p0.2 + 1)
      else p0
    else p0
  let p2 : List UiItem × Nat :=
    if optB device_info.supports_work_mode then
      let r := device_mode_items clean_name (device_info.work_modes.take 4) 0 p1.2
      (p1.1 ++ r.1,
       if device_info.work_modes.length % 4 ≠ 0 then r.2 + 1 else r.2)
    else if optB device_info.supports_brightness ∧ p1.2 < 5 then
      let y := p1.2
      let base := p1.1
        ++ [create_ui_text "25%" 0 y (1, 1) (some (clean_name ++ "_BRIGHTNESS_25")),
            create_ui_text "50%" 1 y (1, 1) (some (clean_name ++ "_BRIGHTNESS_50")),
            create_ui_text "75%" 2 y (1, 1) (some (clean_name ++ "_BRIGHTNESS_75")),
            create_ui_text "100%" 3 y (1, 1) (some (clean_name ++ "_BRIGHTNESS_100"))]
      if y + 1 < 6 then
        (base ++ [create_ui_text "Bright -" 0 (y + 1) (2, 1)
                    (some (clean_name ++ "_BRIGHTNESS_DOWN")),
                  create_ui_text "Bright +" 2 (y + 1) (2, 1)
                    (some (clean_name ++ "_BRIGHTNESS_UP"))],
         y + 2)
      else (base, y + 1)
    else p1
  if optB device_info.supports_color ∧ p2.2 < 5 then
    let y := p2.2
    let base := p2.1
      ++ [create_ui_text "Red" 0 y (1, 1) (some (clean_name ++ "_COLOR_RED")),
          create_ui_text "Green" 1 y (1, 1) (some (clean_name ++ "_COLOR_GREEN")),
          create_ui_text "Blue" 2 y (1, 1) (some (clean_name ++ "_COLOR_BLUE")),
          create_ui_text "White" 3 y (1, 1) (some (clean_name ++ "_COLOR_WHITE"))]
    if y + 1 < 6 then
      (base ++ [create_ui_text "Warm" 0 (y + 1) (2, 1) (some (clean_name ++ "_COLOR_WARM")),
                create_ui_text "Cool" 2 (y + 1) (2, 1) (some (clean_name ++ "_COLOR_COOL"))],
       y + 2)
    else (base, y + 1)
  else p2

/-- The per-device rows of `_add_multi_device_controls_to_page`
(`break` at row 5). -/
def multi_device_rows : Registry → Nat → List UiItem × Nat
  | [], y => ([], y)
  | (device_id, device_info) :: rest, y =>
      if 5 ≤ y then ([], y)
      else
        let device_name := device_info.name.getD ("Device " ++ device_id)
        let clean_name := clean_command_name device_name
        let display_name := if 12 < pyLen device_name then pyTake device_name 12
                            else device_name
        let items := [create_ui_text display_name 0 y (2, 1) none,
                      create_ui_text "Toggle" 2 y (2, 1) (some (clean_name ++ "_TOGGLE"))]
        let next := multi_device_rows rest (y + 1)
        (items ++ next.1, next.2)

/-- `GoveeRemote._add_multi_device_controls_to_page`. -/
def add_multi_device_controls (devices : Registry) (start_y : Nat) :
    List UiItem × Nat :=
  let r := multi_device_rows devices start_y
  let extra :=
    if r.2 < 6 then
      match devices.head? with
      | some p =>
          if optB p.2.supports_power then
            [create_ui_text "All On" 0 5 (2, 1) (some "ALL_ON"),
             create_ui_text "All Off" 2 5 (2, 1) (some "ALL_OFF")]
          else []
      | none => []
    else []
  (r.1 ++ extra, r.2)

/-- `GoveeRemote._create_sku_page`. -/
def create_sku_page (sku : String) (devices : Registry) : UiPage :=
  let page_name := get_sku_display_name sku devices
  let page_id := "sku_" ++ pyLower (pyReplace sku "-" "_")
  let title := create_ui_text page_name 0 0 (4, 1) none
  let body :=
    match devices.head? with
    | some first =>
        if first.2.type_ = some "sync_box" then
          (add_sync_box_controls first.1 first.2 1).1
        else if devices.length = 1 then
          (add_device_controls_to_page first.1 first.2 1).1
        else (add_multi_device_controls devices 1).1
    | none => []
  { page_id := page_id, name := page_name, grid := (4, 6), items := title :: body }

/-- `GoveeRemote._create_sku_control_pages`. -/
def create_sku_control_pages (registry : Registry) : List UiPage :=
  (group_devices_by_sku registry).map (fun g => create_sku_page g.1 g.2)

/-- `GoveeRemote._create_scalable_ui_pages`: a lone "No Devices" page
for an empty registry, else the directory page followed by one page
per SKU group. -/
def create_scalable_ui_pages (registry : Registry) : List UiPage :=
  if registry.isEmpty then
    [{ page_id := "main", name := "No Devices", grid := (4, 6),
       items := [create_ui_text "No devices found" 0 0 (4, 1) none] }]
  else
    create_device_directory_page registry :: create_sku_control_pages registry

/-! ### Auxiliary predicates and concrete fixtures used by the theorems -/

/-- Every `parameters.range` sub-dictionary in the list, read with the
given per-field defaults, is ordered (`min ≤ max`). -/
def paramRangesOrderedB (dmin dmax : Int) (caps : List Capability) : Bool :=
  caps.all (fun cap =>
    match cap.parameters with
    | some p =>
        match p.range with
        | some r => decide (r.min.getD dmin ≤ r.max.getD dmax)
        | none => true
    | none => true)

/-- Every range inside a `parameters.fields` entry, read with the given
per-field defaults, is ordered (`min ≤ max`). -/
def fieldRangesOrderedB (dmin dmax : Int) (caps : List Capability) : Bool :=
  caps.all (fun cap =>
    match cap.parameters with
    | some p =>
        match p.fields with
        | some fs => fs.all (fun fld =>
            match fld.range with
            | some r => decide (r.min.getD dmin ≤ r.max.getD dmax)
            | none => true)
        | none => true
    | none => true)

/-- A device record with every key absent. -/
def emptyInfo : DeviceInfo :=
  { name := none, type_ := none, api_type := none, sku := none,
    capabilities := [], supports_power := none, supports_brightness := none,
    supports_color := none, supports_temperature := none,
    supports_work_mode := none, supports_scenes := none, supports_music := none,
    supports_dreamview := none, supports_gradient := none,
    temperature_range := none, music_modes := [], work_modes := [], scenes := [] }

/-- A power/brightness/color light named "Lamp". -/
def infoLamp : DeviceInfo :=
  { emptyInfo with
    name := some "Lamp", type_ := some "light",
    api_type := some "devices.types.light", sku := some "H6003",
    supports_power := some true, supports_brightness := some true,
    supports_color := some true }

/-- A one-device registry. -/
def registry1 : Registry := [("d1", infoLamp)]

/-- A power-capable lamp record with the given name. -/
def lampNamed (nm : String) : DeviceInfo :=
  { emptyInfo with name := some nm, supports_power := some true }

/-- A three-device registry of power-capable lamps. -/
def registry3 : Registry :=
  [("d1", lampNamed "Lamp One"), ("d2", lampNamed "Lamp Two"),
   ("d3", lampNamed "Lamp Three")]

/-- A client whose every call succeeds. -/
def clientAllOk : Client := fun _ => .ok true

/-- A client for which power calls succeed. -/
def clientPower : Client := fun call =>
  match call with
  | .turnOn _ => .ok true
  | .turnOff _ => .ok true
  | _ => .ok false

/-- A client for which turning on device `d2` raises and every other
power call succeeds. -/
def clientD2Fails : Client := fun call =>
  match call with
  | .turnOn "d2" => .exn
  | .turnOn _ => .ok true
  | .turnOff _ => .ok true
  | _ => .ok false

/-- A dispatcher state whose last allowed send happened at second 1. -/
def stThrottled : RemoteState :=
  { device_throttle := [("d1", 1)], global_throttle := 1, device_states := [] }

/-- A brightness descriptor whose vendor range is inverted (`min > max`). -/
def capsBad : List Capability :=
  [{ type_ := some "devices.capabilities.range", inst := some "brightness",
     parameters := some { range := some { min := some 100, max := some 1 },
                          fields := none } }]

/-- A brightness descriptor with a well-ordered vendor range. -/
def capsGood : List Capability :=
  [{ type_ := some "devices.capabilities.range", inst := some "brightness",
     parameters := some { range := some { min := some 5, max := some 50 },
                          fields := none } }]

/-! ## Helper lemmas

### Characters and the cleaning function (claim C9) -/

theorem toUpper_def (c : Char) :
    c.toUpper = if c.toNat ≥ 97 ∧ c.toNat ≤ 122 then Char.ofNat (c.toNat - 32) else c :=
  rfl

theorem toNat_ofNat_small {n : Nat} (h : n < 0xd800) : (Char.ofNat n).toNat = n := by
  rw [Char.ofNat, dif_pos (Or.inl h)]
  rfl

theorem toUpper_idem (c : Char) : c.toUpper.toUpper = c.toUpper := by
  by_cases h : c.toNat ≥ 97 ∧ c.toNat ≤ 122
  · rw [toUpper_def c, if_pos h]
    have hv : (Char.ofNat (c.toNat - 32)).toNat = c.toNat - 32 :=
      toNat_ofNat_small (by omega)
    rw [toUpper_def, hv, if_neg (by omega)]
  · rw [toUpper_def c, if_neg h, toUpper_def c, if_neg h]

theorem cleanChar_idem (c : Char) :
    underscoreNonAlnum (underscoreNonAlnum c.toUpper).toUpper
      = underscoreNonAlnum c.toUpper := by
  by_cases h : c.toUpper.isAlphanum
  · have h1 : underscoreNonAlnum c.toUpper = c.toUpper := by
      rw [underscoreNonAlnum, if_pos h]
    rw [h1, toUpper_idem]
    exact h1
  · have h1 : underscoreNonAlnum c.toUpper = '_' := by
      rw [underscoreNonAlnum, if_neg h]
    rw [h1]
    decide

/-- The no-adjacent-underscores invariant. -/
def NoDD (l : List Char) : Prop :=
  l.Chain' (fun a b => ¬(a = '_' ∧ b = '_'))

theorem squeezeU_head : ∀ (b : Char) (rest : List Char),
    (squeezeU (b :: rest)).head? = some b := by
  intro b rest
  induction rest generalizing b with
  | nil => rfl
  | cons c rest ih =>
      rw [squeezeU]
      by_cases h : b = '_' ∧ c = '_'
      · rw [if_pos h, h.1, ← h.2, ih]
      · rw [if_neg h]
        rfl

theorem noDD_squeezeU : ∀ l : List Char, NoDD (squeezeU l) := by
  intro l
  match l with
  | [] => exact List.chain'_nil
  | [c] => exact List.chain'_singleton c
  | a :: b :: rest =>
      rw [squeezeU]
      by_cases h : a = '_' ∧ b = '_'
      · rw [if_pos h]
        exact noDD_squeezeU (b :: rest)
      · rw [if_neg h]
        refine List.chain'_cons'.mpr ⟨?_, noDD_squeezeU (b :: rest)⟩
        intro y hy
        rw [squeezeU_head b rest, Option.mem_def, Option.some_inj] at hy
        subst hy
        exact h
termination_by l => l.length

theorem squeezeU_eq_self : ∀ l : List Char, NoDD l → squeezeU l = l := by
  intro l hl
  match l with
  | [] => rfl
  | [c] => rfl
  | a :: b :: rest =>
      rw [squeezeU, if_neg (List.chain'_cons.mp hl).1,
        squeezeU_eq_self (b :: rest) (List.chain'_cons.mp hl).2]
termination_by l => l.length

theorem noDD_dropWhile (p : Char → Bool) :
    ∀ l : List Char, NoDD l → NoDD (l.dropWhile p) := by
  intro l hl
  induction l with
  | nil => exact hl
  | cons a rest ih =>
      rw [List.dropWhile_cons]
      by_cases hp : p a
      · rw [if_pos hp]
        exact ih (List.Chain'.tail hl)
      · rw [if_neg hp]
        exact hl

theorem noDD_reverse {l : List Char} (hl : NoDD l) : NoDD l.reverse := by
  rw [NoDD, List.chain'_reverse]
  exact List.Chain'.imp (fun a b hab h2 => hab ⟨h2.2, h2.1⟩) hl

theorem noDD_pyStripUS {l : List Char} (hl : NoDD l) : NoDD (pyStripUS l) := by
  exact noDD_reverse (noDD_dropWhile _ _ (noDD_reverse (noDD_dropWhile _ _ hl)))

theorem head?_dropWhile_false (p : Char → Bool) :
    ∀ (l : List Char) (x : Char), (l.dropWhile p).head? = some x → p x = false := by
  intro l x h
  induction l with
  | nil => simp at h
  | cons a rest ih =>
      rw [List.dropWhile_cons] at h
      by_cases hp : p a
      · rw [if_pos hp] at h
        exact ih h
      · rw [if_neg hp] at h
        cases h
        exact Bool.eq_false_iff.mpr hp

theorem dropWhile_eq_self_of_head (p : Char → Bool) (l : List Char)
    (h : ∀ x, l.head? = some x → p x = false) : l.dropWhile p = l := by
  cases l with
  | nil => rfl
  | cons a rest =>
      rw [List.dropWhile_cons, if_neg (by rw [h a rfl]; exact Bool.false_ne_true)]

theorem dropWhile_dropWhile (p : Char → Bool) (l : List Char) :
    (l.dropWhile p).dropWhile p = l.dropWhile p :=
  dropWhile_eq_self_of_head p _ (head?_dropWhile_false p l)

theorem getLast?_dropWhile (p : Char → Bool) :
    ∀ l : List Char, l.dropWhile p ≠ [] → (l.dropWhile p).getLast? = l.getLast? := by
  intro l hne
  induction l with
  | nil => rfl
  | cons a rest ih =>
      rw [List.dropWhile_cons]
      by_cases hp : p a
      · rw [List.dropWhile_cons, if_pos hp] at hne
        have hrest : rest ≠ [] := by
          intro hr
          rw [hr] at hne
          exact hne rfl
        rw [if_pos hp, ih hne]
        cases rest with
        | nil => exact absurd rfl hrest
        | cons b t => rw [List.getLast?_cons_cons]
      · rw [if_neg hp]

theorem pyStripUS_idem (l : List Char) : pyStripUS (pyStripUS l) = pyStripUS l := by
  set p : Char → Bool := fun c => c == '_' with hp
  set w := l.dropWhile p with hw
  set m := (w.reverse.dropWhile p).reverse with hm
  have hm_rev : m.reverse = w.reverse.dropWhile p := by rw [hm, List.reverse_reverse]
  have step1 : m.dropWhile p = m := by
    apply dropWhile_eq_self_of_head
    intro x hx
    rw [hm, List.head?_reverse] at hx
    have hne : w.reverse.dropWhile p ≠ [] := by
      intro hnil
      rw [hnil] at hx
      simp at hx
    rw [getLast?_dropWhile p _ hne, List.getLast?_reverse] at hx
    exact head?_dropWhile_false p l x (by rw [← hw]; exact hx)
  show ((m.dropWhile p).reverse.dropWhile p).reverse = m
  rw [step1, hm_rev, dropWhile_dropWhile, ← hm_rev, List.reverse_reverse]

theorem mem_squeezeU : ∀ (l : List Char) (x : Char), x ∈ squeezeU l → x ∈ l := by
  intro l x hx
  match l with
  | [] => exact hx
  | [c] => exact hx
  | a :: b :: rest =>
      rw [squeezeU] at hx
      by_cases h : a = '_' ∧ b = '_'
      · rw [if_pos h] at hx
        exact List.mem_cons_of_mem a (mem_squeezeU (b :: rest) x hx)
      · rw [if_neg h] at hx
        cases List.mem_cons.mp hx with
        | inl heq => exact heq ▸ List.mem_cons_self a (b :: rest)
        | inr hmem => exact List.mem_cons_of_mem a (mem_squeezeU (b :: rest) x hmem)
termination_by l => l.length

theorem mem_pyStripUS {l : List Char} {x : Char} (hx : x ∈ pyStripUS l) : x ∈ l := by
  rw [pyStripUS, List.mem_reverse] at hx
  have h1 := (List.dropWhile_sublist _).mem hx
  rw [List.mem_reverse] at h1
  exact (List.dropWhile_sublist _).mem h1

theorem map_eq_self_of_mem {f : Char → Char} :
    ∀ l : List Char, (∀ x ∈ l, f x = x) → l.map f = l := by
  intro l h
  induction l with
  | nil => rfl
  | cons a rest ih =>
      rw [List.map_cons, h a (List.mem_cons_self a rest),
        ih (fun x hx => h x (List.mem_cons_of_mem a hx))]

/-! ## Claim C9: prefix-cleaning is idempotent -/

/-- C9: applying `_clean_command_name` (upper-case, replace every
non-alphanumeric run by one underscore, trim boundary underscores)
twice yields the same string as applying it once. -/
theorem C9_clean_idempotent (s : String) :
    clean_command_name (clean_command_name s) = clean_command_name s := by
  have hmapmap : ∀ l : List Char, (l.map Char.toUpper).map underscoreNonAlnum
      = l.map (fun c => underscoreNonAlnum c.toUpper) := by
    intro l
    rw [List.map_map]
    rfl
  have hdata : (clean_command_name s).data
      = pyStripUS (squeezeU ((s.data.map Char.toUpper).map underscoreNonAlnum)) := rfl
  have hfix : ∀ x ∈ (clean_command_name s).data, underscoreNonAlnum x.toUpper = x := by
    intro x hx
    rw [hdata, hmapmap] at hx
    have hx2 := mem_squeezeU _ x (mem_pyStripUS hx)
    rcases List.mem_map.mp hx2 with ⟨c, _, hc⟩
    rw [← hc]
    exact cleanChar_idem c
  have h1 : ((clean_command_name s).data.map Char.toUpper).map underscoreNonAlnum
      = (clean_command_name s).data := by
    rw [hmapmap]
    exact map_eq_self_of_mem _ hfix
  have hnodd : NoDD (clean_command_name s).data := by
    rw [hdata]
    exact noDD_pyStripUS (noDD_squeezeU _)
  have h2 : squeezeU (clean_command_name s).data = (clean_command_name s).data :=
    squeezeU_eq_self _ hnodd
  have h3 : pyStripUS (clean_command_name s).data = (clean_command_name s).data := by
    rw [hdata]
    exact pyStripUS_idem _
  show (⟨pyStripUS (squeezeU (((clean_command_name s).data.map Char.toUpper).map
          underscoreNonAlnum))⟩ : String) = clean_command_name s
  rw [h1, h2, h3]

/-! ## Claim C6: device-type classification -/

theorem lookup_mem_snd {β : Type} (l : List (String × β)) (a : String) (v : β)
    (h : l.lookup a = some v) : v ∈ l.map Prod.snd := by
  induction l with
  | nil => simp [List.lookup] at h
  | cons p rest ih =>
      obtain ⟨k, b⟩ := p
      by_cases hk : a = k
      · subst hk
        rw [List.lookup_cons, show (a == a) = true from beq_self_eq_true a] at h
        rw [Option.some_inj] at h
        exact h ▸ List.mem_cons_self b _
      · rw [List.lookup_cons, show (a == k) = false from beq_false_of_ne hk] at h
        exact List.mem_cons_of_mem _ (ih h)

/-- C6: `_determine_device_type` is a pure total function that agrees
with the spec's precedence (SKU allow-list, then the api-type mapping
table, then the capability heuristic) and always produces one of the
fixed device-type tags. -/
theorem C6_device_type_classification (sku api_type : String)
    (supports_color supports_brightness supports_work_mode
     supports_temperature supports_power : Bool) :
    determine_device_type sku api_type supports_color supports_brightness
        supports_work_mode supports_temperature supports_power
      = classify_spec sku api_type supports_color supports_brightness
        supports_work_mode supports_temperature supports_power
    ∧ determine_device_type sku api_type supports_color supports_brightness
        supports_work_mode supports_temperature supports_power ∈ device_type_tags := by
  constructor
  · rw [determine_device_type, classify_spec]
    by_cases hs : sku ∈ (["H6603", "H6604", "H8604"] : List String)
    · rw [if_pos hs, if_pos hs]
    · rw [if_neg hs, if_neg hs]
      by_cases ha : api_type = ""
      · subst ha
        rw [if_neg (by simp), show type_mapping.lookup "" = none from by decide]
      · rw [if_pos ha]
  · rw [determine_device_type]
    by_cases hs : sku ∈ (["H6603", "H6604", "H8604"] : List String)
    · rw [if_pos hs]
      decide
    · rw [if_neg hs]
      cases hl : (if api_type ≠ "" then type_mapping.lookup api_type else none) with
      | some t =>
          have hmem : t ∈ type_mapping.map Prod.snd := by
            by_cases ha : api_type ≠ ""
            · rw [if_pos ha] at hl
              exact lookup_mem_snd _ _ _ hl
            · rw [if_neg ha] at hl
              cases hl
          have hsub : ∀ x ∈ type_mapping.map Prod.snd, x ∈ device_type_tags := by decide
          exact hsub t hmem
      | none =>
          split_ifs <;> decide

/-! ## Claim C7: setup error classification (corrected)

Two parts of the claim fail on the code.  First, errors raised during
connection testing never "match their cause": `client.test_connection`
swallows every `GoveeAPIError` into `False`, which setup surfaces
uniformly as `CONNECTION_REFUSED` — a 401 there is not surfaced as the
unauthorized kind.  Second, there is no distinct rate-limited kind: a
429 during device listing maps to `OTHER`, the very kind used for
generic unexpected errors. -/

/-- C7 counterexample: a 401 (unauthorized) API error raised during
connection testing is surfaced as connection-refused, not as the
unauthorized kind; and a 429 (rate-limit) API error raised during
device listing is surfaced as the generic `OTHER` kind, identical to
the kind surfaced for an unexpected exception — not as a distinct
rate-limited kind. -/
theorem C7_counterexample :
    test_govee_connection_error (.apiError (some 401)) .success
      = some .connectionRefused
    ∧ test_govee_connection_error .success (.apiError (some 429)) = some .other
    ∧ test_govee_connection_error .success .unexpected = some .other := by
  decide

/-- C7 (amended): a failure of the connection test is surfaced as
connection-refused regardless of its cause, because
`client.test_connection` swallows every API error into `False`; when
the connection test succeeds, an API error raised during device
listing is classified without retry as: 401 to the unauthorized kind,
429 to the generic `other` kind (the same kind as unexpected errors,
not a distinct rate-limited kind), and any other code (or a code-less
API error) to connection-refused; an unexpected listing error maps to
`other`; when both requests succeed no error is surfaced; and every
surfaced kind is one of the three `{other, connection-refused,
unauthorized}`. -/
theorem C7_setup_error_classification :
    (∀ (code : Option Int) (listing : RequestOutcome),
        test_govee_connection_error (.apiError code) listing
          = some .connectionRefused)
    ∧ (∀ listing : RequestOutcome,
        test_govee_connection_error .unexpected listing = some .connectionRefused)
    ∧ test_govee_connection_error .success .success = none
    ∧ test_govee_connection_error .success (.apiError (some 401))
        = some .authorizationError
    ∧ test_govee_connection_error .success (.apiError (some 429)) = some .other
    ∧ (∀ code : Option Int, code ≠ some 401 → code ≠ some 429 →
        test_govee_connection_error .success (.apiError code)
          = some .connectionRefused)
    ∧ test_govee_connection_error .success .unexpected = some .other
    ∧ (∀ (testing listing : RequestOutcome) (k : SetupErrorKind),
        test_govee_connection_error testing listing = some k →
        k ∈ [SetupErrorKind.other, SetupErrorKind.connectionRefused,
             SetupErrorKind.authorizationError]) := by
  refine ⟨fun code listing => rfl, fun listing => rfl, rfl, by decide, by decide,
    ?_, by decide, ?_⟩
  · intro code h1 h2
    show some (classify_setup_error (.apiError code))
      = some SetupErrorKind.connectionRefused
    rw [classify_setup_error, if_neg h1, if_neg h2]
  · intro testing listing k h
    cases testing with
    | apiError code =>
        rw [show test_govee_connection_error (.apiError code) listing
            = some .connectionRefused from rfl, Option.some_inj] at h
        subst h
        decide
    | unexpected =>
        rw [show test_govee_connection_error .unexpected listing
            = some .connectionRefused from rfl, Option.some_inj] at h
        subst h
        decide
    | success =>
        cases listing with
        | success => exact Option.noConfusion h
        | apiError code =>
            rw [show test_govee_connection_error .success (.apiError code)
                = some (classify_setup_error (.apiError code)) from rfl,
              Option.some_inj] at h
            subst h
            rw [classify_setup_error]
            split_ifs <;> decide
        | unexpected =>
            rw [show test_govee_connection_error .success .unexpected
                = some .other from rfl, Option.some_inj] at h
            subst h
            decide

/-- C7 witness: a 500 API error during device listing is surfaced as
connection-refused. -/
theorem C7_witness :
    test_govee_connection_error .success (.apiError (some 500))
      = some .connectionRefused :=
  C7_setup_error_classification.2.2.2.2.2.1 (some 500) (by decide) (by decide)

/-! ## Claim C8: empty registry -/

/-- C8: with an empty registry the generated command set is exactly
`["NO_DEVICES"]`, and the generated UI is a single page with one
"no devices" text cell bound to no command. -/
theorem C8_empty_registry :
    generate_simple_commands [] = ["NO_DEVICES"]
    ∧ create_scalable_ui_pages [] =
        [{ page_id := "main", name := "No Devices", grid := (4, 6),
           items := [{ text := "No devices found", x := 0, y := 0,
                       size := (4, 1), command := none }] }] := by
  constructor
  · rfl
  · rfl

/-! ## Claim C5: range accessors (corrected)

The accessors never fail and default when the descriptor is absent,
but they pass vendor-supplied bounds through unchecked, so a malformed
descriptor with `min > max` yields an unordered range. -/

/-- C5 counterexample: a brightness descriptor carrying the inverted
vendor range `min = 100, max = 1` is returned as `(100, 1)`, violating
the claimed `min ≤ max` invariant. -/
theorem C5_counterexample :
    get_brightness_range capsBad = (100, 1)
    ∧ ¬ ((get_brightness_range capsBad).1 ≤ (get_brightness_range capsBad).2) := by
  decide

theorem ordered_of_param {dmin dmax : Int} {caps : List Capability} {cap : Capability}
    (hd : dmin ≤ dmax) (hmem : cap ∈ caps)
    (h : paramRangesOrderedB dmin dmax caps = true) (p : CapParameters)
    (hp : cap.parameters = some p) :
    ((p.range.getD ⟨none, none⟩).min.getD dmin) ≤ ((p.range.getD ⟨none, none⟩).max.getD dmax) := by
  have hcapb := List.all_eq_true.mp h cap hmem
  simp only [hp] at hcapb
  cases hr : p.range with
  | none =>
      simp only [hr, Option.getD_none]
      exact hd
  | some r =>
      simp only [hr] at hcapb
      simp only [hr, Option.getD_some]
      exact of_decide_eq_true hcapb

theorem brightness_range_ordered (caps : List Capability)
    (h : paramRangesOrderedB 1 100 caps = true) :
    (get_brightness_range caps).1 ≤ (get_brightness_range caps).2 := by
  rw [get_brightness_range]
  cases hcap : get_capability caps "devices.capabilities.range" "brightness" with
  | none => norm_num
  | some cap =>
      cases hp : cap.parameters with
      | none =>
          simp only [hp]
          norm_num
      | some p =>
          simp only [hp]
          exact ordered_of_param (by norm_num) (List.mem_of_find?_eq_some hcap) h p hp

theorem color_temp_range_ordered (caps : List Capability)
    (h : paramRangesOrderedB 2000 9000 caps = true) :
    (get_color_temp_range caps).1 ≤ (get_color_temp_range caps).2 := by
  rw [get_color_temp_range]
  cases hcap : get_capability caps "devices.capabilities.color_setting" "colorTemperatureK" with
  | none => norm_num
  | some cap =>
      cases hp : cap.parameters with
      | none =>
          simp only [hp]
          norm_num
      | some p =>
          simp only [hp]
          exact ordered_of_param (by norm_num) (List.mem_of_find?_eq_some hcap) h p hp

theorem temp_fallback_ordered (caps : List Capability)
    (h : paramRangesOrderedB 20 100 caps = true) :
    (temp_range_fallback caps).1 ≤ (temp_range_fallback caps).2 := by
  rw [temp_range_fallback]
  cases hcap : get_capability caps "devices.capabilities.range" "temperature" with
  | none => norm_num
  | some cap =>
      cases hp : cap.parameters with
      | none =>
          simp only [hp]
          norm_num
      | some p =>
          simp only [hp]
          exact ordered_of_param (by norm_num) (List.mem_of_find?_eq_some hcap) h p hp

theorem temperature_range_ordered (caps : List Capability)
    (h : paramRangesOrderedB 20 100 caps = true)
    (hf : fieldRangesOrderedB 20 100 caps = true) :
    (get_temperature_range caps).1 ≤ (get_temperature_range caps).2 := by
  rw [get_temperature_range]
  cases hcap : get_capability caps "devices.capabilities.temperature_setting" "sliderTemperature" with
  | none => exact temp_fallback_ordered caps h
  | some cap =>
      cases hp : cap.parameters with
      | none =>
          simp only [hp]
          exact temp_fallback_ordered caps h
      | some p =>
          cases hfs : p.fields with
          | none =>
              simp only [hp, hfs]
              exact temp_fallback_ordered caps h
          | some fs =>
              cases hfd : fs.find? (fun fld => fld.fieldName == some "temperature" && fld.range.isSome) with
              | none =>
                  simp only [hp, hfs, hfd]
                  exact temp_fallback_ordered caps h
              | some fld =>
                  have hpred := List.find?_some hfd
                  rw [Bool.and_eq_true] at hpred
                  cases hr : fld.range with
                  | none =>
                      rw [hr] at hpred
                      simp at hpred
                  | some r =>
                      have hcapb := List.all_eq_true.mp hf cap (List.mem_of_find?_eq_some hcap)
                      simp only [hp, hfs] at hcapb
                      have hfldb := List.all_eq_true.mp hcapb fld (List.mem_of_find?_eq_some hfd)
                      simp only [hr] at hfldb
                      simp only [hp, hfs, hfd, hr, Option.getD_some]
                      exact of_decide_eq_true hfldb

/-- C5 (amended): the three range accessors are total; each returns
its documented default — `(1, 100)`, `(2000, 9000)`, `(20, 100)` —
when the relevant descriptor is absent, and each returned range
satisfies `min ≤ max` provided every vendor-supplied range (read with
the accessor's per-field defaults) is itself ordered; a vendor range
with `min > max` is passed through as-is. -/
theorem C5_range_accessors (caps : List Capability) :
    (get_capability caps "devices.capabilities.range" "brightness" = none →
      get_brightness_range caps = (1, 100))
    ∧ (get_capability caps "devices.capabilities.color_setting" "colorTemperatureK" = none →
      get_color_temp_range caps = (2000, 9000))
    ∧ (get_capability caps "devices.capabilities.temperature_setting" "sliderTemperature" = none →
      get_capability caps "devices.capabilities.range" "temperature" = none →
      get_temperature_range caps = (20, 100))
    ∧ (paramRangesOrderedB 1 100 caps = true →
      (get_brightness_range caps).1 ≤ (get_brightness_range caps).2)
    ∧ (paramRangesOrderedB 2000 9000 caps = true →
      (get_color_temp_range caps).1 ≤ (get_color_temp_range caps).2)
    ∧ (paramRangesOrderedB 20 100 caps = true → fieldRangesOrderedB 20 100 caps = true →
      (get_temperature_range caps).1 ≤ (get_temperature_range caps).2) := by
  refine ⟨?_, ?_, ?_, brightness_range_ordered caps, color_temp_range_ordered caps,
    temperature_range_ordered caps⟩
  · intro h
    rw [get_brightness_range, h]
  · intro h
    rw [get_color_temp_range, h]
  · intro h1 h2
    rw [get_temperature_range, h1, temp_range_fallback, h2]

/-- C5 witness: with no descriptors every accessor returns its default,
and a well-ordered vendor brightness range stays ordered. -/
theorem C5_witness :
    get_brightness_range [] = (1, 100)
    ∧ get_color_temp_range [] = (2000, 9000)
    ∧ get_temperature_range [] = (20, 100)
    ∧ (get_brightness_range capsGood).1 ≤ (get_brightness_range capsGood).2 :=
  ⟨(C5_range_accessors []).1 rfl,
   (C5_range_accessors []).2.1 rfl,
   (C5_range_accessors []).2.2.1 rfl rfl,
   (C5_range_accessors capsGood).2.2.2.1 (by decide)⟩

/-! ## Dispatcher helper lemmas (claims C1–C4, C10) -/

theorem check_throttle_blocked {now : ℚ} {st : RemoteState} {device_id : String}
    (h : now - st.global_throttle < 0.1 ∨
         now - ((st.device_throttle.lookup device_id).getD 0) < 0.3) :
    check_throttle now device_id st = (false, st) := by
  rw [check_throttle]
  by_cases h1 : now - st.global_throttle < 0.1
  · rw [if_pos h1]
  · rw [if_neg h1, if_pos (h.resolve_left h1)]

theorem check_throttle_allowed {now : ℚ} {st : RemoteState} {device_id : String}
    (h1 : ¬ (now - st.global_throttle < 0.1))
    (h2 : ¬ (now - ((st.device_throttle.lookup device_id).getD 0) < 0.3)) :
    check_throttle now device_id st =
      (true, { st with global_throttle := now,
                       device_throttle := updA st.device_throttle device_id now }) := by
  rw [check_throttle, if_neg h1, if_neg h2]

theorem resolve_isEmpty_false {cmd : String} {registry : Registry}
    {x : String × DeviceInfo × String}
    (h : resolve_command cmd registry = some x) : registry.isEmpty = false := by
  cases registry with
  | nil => exact absurd h (by rw [resolve_command]; exact Option.noConfusion)
  | cons a l => rfl

theorem entry_device_path (client : Client) {cmd : String} {registry : Registry}
    (st : RemoteState) (times : List ℚ)
    (hne : registry.isEmpty = false) (hnd : cmd ≠ "NO_DEVICES")
    (hall : pyStartsWith cmd "ALL_" = false) :
    execute_govee_command client cmd registry st times
      = execute_device_command client (times.headD 0) cmd registry st := by
  rw [execute_govee_command,
    if_neg (fun hor => hor.elim (fun h => by rw [hne] at h; cases h) hnd),
    if_neg (fun h => by rw [hall] at h; cases h)]

theorem exec_throttled_noop (client : Client) {cmd : String} {registry : Registry}
    {st : RemoteState} {times : List ℚ} {device_id : String} {device_info : DeviceInfo}
    {action_part : String}
    (hres : resolve_command cmd registry = some (device_id, device_info, action_part))
    (hnd : cmd ≠ "NO_DEVICES") (hall : pyStartsWith cmd "ALL_" = false)
    (hthr : times.headD 0 - st.global_throttle < 0.1 ∨
            times.headD 0 - ((st.device_throttle.lookup device_id).getD 0) < 0.3) :
    execute_govee_command client cmd registry st times = (true, st, []) := by
  rw [entry_device_path client st times (resolve_isEmpty_false hres) hnd hall,
    execute_device_command, hres]
  simp only [check_throttle_blocked hthr]
  rfl

theorem optStrTruthy_some_ne {s : String} (h : s ≠ "") : optStrTruthy (some s) = true := by
  rw [optStrTruthy]
  cases s with
  | mk data =>
      cases data with
      | nil => exact absurd rfl h
      | cons c cs => rfl

theorem map_TOGGLE {info : DeviceInfo} (h : optB info.supports_power = true) :
    map_ui_action_to_govee_action "TOGGLE" info = some "toggle" := by
  rw [map_ui_action_to_govee_action, if_neg (by decide), if_neg (by decide),
    if_pos rfl, if_pos h]

theorem mapped_toggle_absent_ok (client : Client) (dev id : String) (info : DeviceInfo)
    (states : List (String × Bool)) (r : Bool) (hid : id ≠ "")
    (hnone : states.lookup id = none) (hcl : client (.turnOn dev) = .ok r) :
    execute_mapped_action client dev "toggle" info (some id) states
      = (r, if r then updA states id true else states, [.turnOn dev]) := by
  rw [execute_mapped_action, if_neg (by decide), if_neg (by decide), if_pos rfl,
    if_pos (optStrTruthy_some_ne hid)]
  simp only [Option.getD_some, hnone, Option.getD_none, Bool.false_eq_true, if_false, hcl]

theorem mapped_toggle_absent_exn (client : Client) (dev id : String) (info : DeviceInfo)
    (states : List (String × Bool)) (hid : id ≠ "")
    (hnone : states.lookup id = none) (hcl : client (.turnOn dev) = .exn) :
    execute_mapped_action client dev "toggle" info (some id) states
      = (false, states, [.turnOn dev]) := by
  rw [execute_mapped_action, if_neg (by decide), if_neg (by decide), if_pos rfl,
    if_pos (optStrTruthy_some_ne hid)]
  simp only [Option.getD_some, hnone, Option.getD_none, Bool.false_eq_true, if_false, hcl]

theorem mapped_toggle_cached_on_ok (client : Client) (dev id : String) (info : DeviceInfo)
    (states : List (String × Bool)) (r : Bool) (hid : id ≠ "")
    (hsome : states.lookup id = some true) (hcl : client (.turnOff dev) = .ok r) :
    execute_mapped_action client dev "toggle" info (some id) states
      = (r, if r then updA states id false else states, [.turnOff dev]) := by
  rw [execute_mapped_action, if_neg (by decide), if_neg (by decide), if_pos rfl,
    if_pos (optStrTruthy_some_ne hid)]
  simp only [Option.getD_some, hsome, if_true, hcl]

theorem mapped_toggle_cached_on_exn (client : Client) (dev id : String) (info : DeviceInfo)
    (states : List (String × Bool)) (hid : id ≠ "")
    (hsome : states.lookup id = some true) (hcl : client (.turnOff dev) = .exn) :
    execute_mapped_action client dev "toggle" info (some id) states
      = (false, states, [.turnOff dev]) := by
  rw [execute_mapped_action, if_neg (by decide), if_neg (by decide), if_pos rfl,
    if_pos (optStrTruthy_some_ne hid)]
  simp only [Option.getD_some, hsome, if_true, hcl]

theorem exec_toggle_cmd (client : Client) {cmd : String} {registry : Registry}
    {id : String} {info : DeviceInfo} (st : RemoteState) (now : ℚ)
    (hres : resolve_command cmd registry = some (id, info, "TOGGLE"))
    (hnd : cmd ≠ "NO_DEVICES") (hall : pyStartsWith cmd "ALL_" = false)
    (hpw : optB info.supports_power = true)
    (h1 : ¬ (now - st.global_throttle < 0.1))
    (h2 : ¬ (now - ((st.device_throttle.lookup id).getD 0) < 0.3)) :
    execute_govee_command client cmd registry st [now]
      = ((execute_mapped_action client id "toggle" info (some id) st.device_states).1,
         { st with global_throttle := now,
                   device_throttle := updA st.device_throttle id now,
                   device_states :=
                     (execute_mapped_action client id "toggle" info (some id)
                       st.device_states).2.1 },
         (execute_mapped_action client id "toggle" info (some id) st.device_states).2.2) := by
  rw [entry_device_path client st [now] (resolve_isEmpty_false hres) hnd hall,
    execute_device_command, hres]
  show (let res := check_throttle ([now].headD 0) id st
        if !res.1 then (true, res.2, [])
        else
          match map_ui_action_to_govee_action "TOGGLE" info with
          | some govee_action =>
              let out := execute_mapped_action client id govee_action info (some id)
                res.2.device_states
              (out.1, { res.2 with device_states := out.2.1 }, out.2.2)
          | none => (false, res.2, [])) = _
  rw [show ([now].headD 0) = now from rfl, check_throttle_allowed h1 h2, map_TOGGLE hpw]
  rfl

/-! ## Claim C1: the toggle state machine -/

/-- C1: the power-state cache starts absent and absence is treated as
OFF: a TOGGLE with no cached state sends turn-on, and the cache is set
to ON exactly when the client call returns success; with cached state
ON it sends turn-off, setting the cache to OFF exactly on success; a
failed or raising client call leaves the cache unchanged; and two
consecutive successful TOGGLE commands dispatched outside the throttle
windows go turn-on then turn-off. -/
theorem C1_toggle_state_machine :
    initRemoteState.device_states = []
    ∧ (∀ (client : Client) (dev id : String) (info : DeviceInfo)
         (states : List (String × Bool)) (r : Bool),
        id ≠ "" → states.lookup id = none → client (.turnOn dev) = .ok r →
        execute_mapped_action client dev "toggle" info (some id) states
          = (r, if r then updA states id true else states, [.turnOn dev]))
    ∧ (∀ (client : Client) (dev id : String) (info : DeviceInfo)
         (states : List (String × Bool)),
        id ≠ "" → states.lookup id = none → client (.turnOn dev) = .exn →
        execute_mapped_action client dev "toggle" info (some id) states
          = (false, states, [.turnOn dev]))
    ∧ (∀ (client : Client) (dev id : String) (info : DeviceInfo)
         (states : List (String × Bool)) (r : Bool),
        id ≠ "" → states.lookup id = some true → client (.turnOff dev) = .ok r →
        execute_mapped_action client dev "toggle" info (some id) states
          = (r, if r then updA states id false else states, [.turnOff dev]))
    ∧ (∀ (client : Client) (dev id : String) (info : DeviceInfo)
         (states : List (String × Bool)),
        id ≠ "" → states.lookup id = some true → client (.turnOff dev) = .exn →
        execute_mapped_action client dev "toggle" info (some id) states
          = (false, states, [.turnOff dev]))
    ∧ (∀ (client : Client) (cmd : String) (registry : Registry) (id : String)
         (info : DeviceInfo) (t1 t2 : ℚ),
        resolve_command cmd registry = some (id, info, "TOGGLE") →
        cmd ≠ "NO_DEVICES" → pyStartsWith cmd "ALL_" = false →
        id ≠ "" → optB info.supports_power = true →
        0.3 ≤ t1 → 0.3 ≤ t2 - t1 →
        client (.turnOn id) = .ok true → client (.turnOff id) = .ok true →
        execute_govee_command client cmd registry initRemoteState [t1]
          = (true, { device_throttle := [(id, t1)], global_throttle := t1,
                     device_states := [(id, true)] }, [.turnOn id])
        ∧ execute_govee_command client cmd registry
            { device_throttle := [(id, t1)], global_throttle := t1,
              device_states := [(id, true)] } [t2]
          = (true, { device_throttle := [(id, t2)], global_throttle := t2,
                     device_states := [(id, false)] }, [.turnOff id])) := by
  refine ⟨rfl, mapped_toggle_absent_ok, mapped_toggle_absent_exn,
    mapped_toggle_cached_on_ok, mapped_toggle_cached_on_exn, ?_⟩
  intro client cmd registry id info t1 t2 hres hnd hall hid hpw ht1 ht2 hon hoff
  constructor
  · rw [exec_toggle_cmd client initRemoteState t1 hres hnd hall hpw
      (by rw [initRemoteState]; intro h; norm_num at h; linarith)
      (by rw [initRemoteState]; simp only [List.lookup_nil, Option.getD_none]
          intro h; linarith),
      mapped_toggle_absent_ok client id id info initRemoteState.device_states true hid
        (by rw [initRemoteState]; rfl) hon]
    rfl
  · have hlk : (List.lookup id [(id, t1)]).getD 0 = t1 := by
      rw [List.lookup_cons, show (id == id) = true from beq_self_eq_true id]
      rfl
    rw [exec_toggle_cmd client _ t2 hres hnd hall hpw
      (by intro h; norm_num at h; linarith)
      (by rw [show ({ device_throttle := [(id, t1)], global_throttle := t1,
                      device_states := [(id, true)] } : RemoteState).device_throttle
              = [(id, t1)] from rfl, hlk]
          intro h; linarith),
      mapped_toggle_cached_on_ok client id id info [(id, true)] true hid
        (by rw [List.lookup_cons, show (id == id) = true from beq_self_eq_true id])
        hoff]
    simp only [if_true]
    rw [show updA [(id, t1)] id t2 = [(id, t2)] from by rw [updA, if_pos rfl],
      show updA [(id, true)] id false = [(id, false)] from by rw [updA, if_pos rfl]]

/-- C1 witness: toggling the lamp twice from a fresh dispatcher at
seconds 1 and 2 turns it on then off. -/
theorem C1_witness :
    execute_govee_command clientPower "LAMP_TOGGLE" registry1 initRemoteState [1]
      = (true, { device_throttle := [("d1", 1)], global_throttle := 1,
                 device_states := [("d1", true)] }, [.turnOn "d1"])
    ∧ execute_govee_command clientPower "LAMP_TOGGLE" registry1
        { device_throttle := [("d1", 1)], global_throttle := 1,
          device_states := [("d1", true)] } [2]
      = (true, { device_throttle := [("d1", 2)], global_throttle := 2,
                 device_states := [("d1", false)] }, [.turnOff "d1"]) :=
  C1_toggle_state_machine.2.2.2.2.2 clientPower "LAMP_TOGGLE" registry1 "d1" infoLamp 1 2
    (by decide) (by decide) (by decide) (by decide) (by decide)
    (by norm_num) (by norm_num) rfl rfl

/-! ## Claim C2: throttled no-op -/

/-- C2: a device-prefixed command executed less than 0.3 s after the
previous allowed send to the matched device, or less than 0.1 s after
the previous allowed send to any device, returns success while making
no client call and leaving the dispatcher state untouched. -/
theorem C2_throttled_noop (client : Client) (cmd : String) (registry : Registry)
    (st : RemoteState) (times : List ℚ) (device_id : String)
    (device_info : DeviceInfo) (action_part : String)
    (hres : resolve_command cmd registry = some (device_id, device_info, action_part))
    (hnd : cmd ≠ "NO_DEVICES") (hall : pyStartsWith cmd "ALL_" = false)
    (hthr : times.headD 0 - st.global_throttle < 0.1 ∨
            times.headD 0 - ((st.device_throttle.lookup device_id).getD 0) < 0.3) :
    execute_govee_command client cmd registry st times = (true, st, []) :=
  exec_throttled_noop client hres hnd hall hthr

/-- C2 witness: `LAMP_ON` arriving 0.05 s after the last allowed send
is swallowed as a success without any client call. -/
theorem C2_witness :
    execute_govee_command clientAllOk "LAMP_ON" registry1 stThrottled [21/20]
      = (true, stThrottled, []) :=
  C2_throttled_noop clientAllOk "LAMP_ON" registry1 stThrottled [21/20] "d1" infoLamp "ON"
    (by decide) (by decide) (by decide)
    (Or.inl (by rw [show stThrottled.global_throttle = 1 from rfl]; norm_num))

/-! ## Claim C3: unresolvable commands (corrected)

The throttle check runs before the action suffix is mapped, so an
unmapped suffix arriving inside a throttle window is swallowed as a
success rather than failing. -/

/-- C3 counterexample: `BOGUS` maps to no action for the lamp, yet
executing `LAMP_BOGUS` 0.05 s after the last allowed send returns
success (the claim asserts failure for every such command). -/
theorem C3_counterexample :
    map_ui_action_to_govee_action "BOGUS" infoLamp = none
    ∧ (execute_govee_command clientAllOk "LAMP_BOGUS" registry1 stThrottled [21/20]).1
        = true := by
  constructor
  · decide
  · rw [exec_throttled_noop clientAllOk
      (show resolve_command "LAMP_BOGUS" registry1 = some ("d1", infoLamp, "BOGUS")
        from by decide)
      (by decide) (by decide)
      (Or.inl (by rw [show stThrottled.global_throttle = 1 from rfl]; norm_num))]

/-- C3 (amended): a command matching no device prefix always fails
with no client call and no state change; a device-prefixed command
whose action suffix does not map to a permitted action fails with no
client call and no power-state-cache change, provided the throttle
admits the send (inside the throttle window it is instead swallowed as
a no-op success). -/
theorem C3_unresolvable_commands (client : Client) (cmd : String) (registry : Registry)
    (st : RemoteState) (times : List ℚ) :
    (resolve_command cmd registry = none → cmd ≠ "NO_DEVICES" →
      pyStartsWith cmd "ALL_" = false →
      execute_govee_command client cmd registry st times = (false, st, []))
    ∧ (∀ (device_id : String) (device_info : DeviceInfo) (action_part : String),
        resolve_command cmd registry = some (device_id, device_info, action_part) →
        cmd ≠ "NO_DEVICES" → pyStartsWith cmd "ALL_" = false →
        map_ui_action_to_govee_action action_part device_info = none →
        ¬ (times.headD 0 - st.global_throttle < 0.1) →
        ¬ (times.headD 0 - ((st.device_throttle.lookup device_id).getD 0) < 0.3) →
        (execute_govee_command client cmd registry st times).1 = false
        ∧ (execute_govee_command client cmd registry st times).2.2 = []
        ∧ (execute_govee_command client cmd registry st times).2.1.device_states
            = st.device_states) := by
  constructor
  · intro hres hnd hall
    cases hreg : registry.isEmpty with
    | true =>
        rw [execute_govee_command, if_pos (Or.inl hreg)]
    | false =>
        rw [entry_device_path client st times hreg hnd hall,
          execute_device_command, hres]
  · intro device_id device_info action_part hres hnd hall hmap h1 h2
    have hE : execute_govee_command client cmd registry st times
        = (false,
           (⟨updA st.device_throttle device_id (times.headD 0), times.headD 0,
             st.device_states⟩ : RemoteState),
           []) := by
      rw [entry_device_path client st times (resolve_isEmpty_false hres) hnd hall,
        execute_device_command, hres]
      simp only [check_throttle_allowed h1 h2, hmap]
      rfl
    rw [hE]
    exact ⟨rfl, rfl, rfl⟩

/-- C3 witness: an unknown command fails without a call, and an
unmapped suffix outside the throttle window fails without a call. -/
theorem C3_witness :
    execute_govee_command clientAllOk "UNKNOWN_CMD" registry1 initRemoteState [1]
      = (false, initRemoteState, [])
    ∧ (execute_govee_command clientAllOk "LAMP_BOGUS" registry1 initRemoteState [1]).1
        = false
    ∧ (execute_govee_command clientAllOk "LAMP_BOGUS" registry1 initRemoteState [1]).2.2
        = [] :=
  ⟨(C3_unresolvable_commands clientAllOk "UNKNOWN_CMD" registry1 initRemoteState [1]).1
      (by decide) (by decide) (by decide),
   ((C3_unresolvable_commands clientAllOk "LAMP_BOGUS" registry1 initRemoteState [1]).2
      "d1" infoLamp "BOGUS" (by decide) (by decide) (by decide) (by decide)
      (by rw [show initRemoteState.global_throttle = 0 from rfl]; norm_num)
      (by rw [show initRemoteState.device_throttle = [] from rfl]
          simp only [List.lookup_nil, Option.getD_none]
          norm_num)).1,
   ((C3_unresolvable_commands clientAllOk "LAMP_BOGUS" registry1 initRemoteState [1]).2
      "d1" infoLamp "BOGUS" (by decide) (by decide) (by decide) (by decide)
      (by rw [show initRemoteState.global_throttle = 0 from rfl]; norm_num)
      (by rw [show initRemoteState.device_throttle = [] from rfl]
          simp only [List.lookup_nil, Option.getD_none]
          norm_num)).2.1⟩

/-! ## Claims C4 and C10: global fan-out -/

theorem entry_global_path (client : Client) {cmd : String} {registry : Registry}
    (st : RemoteState) (times : List ℚ)
    (hne : registry.isEmpty = false) (hnd : cmd ≠ "NO_DEVICES")
    (hall : pyStartsWith cmd "ALL_" = true) :
    execute_govee_command client cmd registry st times
      = execute_global_command client cmd registry st times := by
  rw [execute_govee_command,
    if_neg (fun hor => hor.elim (fun h => by rw [hne] at h; cases h) hnd),
    if_pos hall]

theorem global_tasks_eq_filter {cmd act : String}
    (hf : ∀ x : String,
      (if cmd = "ALL_ON" then some (x, "turn_on")
       else if cmd = "ALL_OFF" then some (x, "turn_off")
       else if cmd = "ALL_TOGGLE" then some (x, "toggle")
       else none) = some (x, act)) :
    ∀ registry : Registry,
      global_tasks cmd registry
        = (registry.filter (fun p => p.2.supports_power.getD true)).map
            (fun p => (p.1, act)) := by
  intro registry
  induction registry with
  | nil => rfl
  | cons p rest ih =>
      rw [global_tasks] at ih ⊢
      rw [List.filterMap_cons, List.filter_cons]
      by_cases hp : p.2.supports_power.getD true = true
      · simp only [hp, if_true, hf p.1, List.map_cons, ih]
      · simp only [hp, Bool.false_eq_true, if_false, ih,
          show (p.2.supports_power.getD true) = false from Bool.eq_false_iff.mpr hp]

theorem optPower_getD_iff (o : Option Bool) : (o.getD true = true) ↔ o ≠ some false := by
  cases o with
  | none => simp
  | some b => cases b <;> simp

theorem mem_global_tasks_iff {cmd act : String} (registry : Registry) (id : String)
    (hf : ∀ x : String,
      (if cmd = "ALL_ON" then some (x, "turn_on")
       else if cmd = "ALL_OFF" then some (x, "turn_off")
       else if cmd = "ALL_TOGGLE" then some (x, "toggle")
       else none) = some (x, act)) :
    (id, act) ∈ global_tasks cmd registry
      ↔ ∃ info, (id, info) ∈ registry ∧ info.supports_power ≠ some false := by
  rw [global_tasks, List.mem_filterMap]
  constructor
  · rintro ⟨⟨pid, pinfo⟩, hmem, hfp⟩
    by_cases hpw : pinfo.supports_power.getD true = true
    · rw [if_pos hpw, hf pid, Option.some_inj] at hfp
      have hpid : pid = id := congrArg Prod.fst hfp
      subst hpid
      exact ⟨pinfo, hmem, (optPower_getD_iff _).mp hpw⟩
    · rw [if_neg hpw] at hfp
      exact Option.noConfusion hfp
  · rintro ⟨info, hmem, hpow⟩
    refine ⟨(id, info), hmem, ?_⟩
    rw [if_pos ((optPower_getD_iff _).mpr hpow)]
    exact hf id

theorem safe_turn_on_ok (client : Client) (now : ℚ) (id : String) (registry : Registry)
    (st : RemoteState) (info : DeviceInfo) (r : Bool)
    (h1 : ¬ (now - st.global_throttle < 0.1))
    (h2 : ¬ (now - ((st.device_throttle.lookup id).getD 0) < 0.3))
    (hlk : registry.lookup id = some info)
    (hcl : client (.turnOn id) = .ok r) :
    execute_device_action_safe client now id "turn_on" registry st
      = (r,
         if r then
           (⟨updA st.device_throttle id now, now, updA st.device_states id true⟩ : RemoteState)
         else ⟨updA st.device_throttle id now, now, st.device_states⟩,
         [.turnOn id]) := by
  rw [execute_device_action_safe]
  simp only [check_throttle_allowed h1 h2, hlk, hcl]
  rfl

theorem safe_turn_on_exn (client : Client) (now : ℚ) (id : String) (registry : Registry)
    (st : RemoteState) (info : DeviceInfo)
    (h1 : ¬ (now - st.global_throttle < 0.1))
    (h2 : ¬ (now - ((st.device_throttle.lookup id).getD 0) < 0.3))
    (hlk : registry.lookup id = some info)
    (hcl : client (.turnOn id) = .exn) :
    execute_device_action_safe client now id "turn_on" registry st
      = (false, ⟨updA st.device_throttle id now, now, st.device_states⟩, [.turnOn id]) := by
  rw [execute_device_action_safe]
  simp only [check_throttle_allowed h1 h2, hlk, hcl]
  rfl

/-- C4: `ALL_ON`/`ALL_OFF`/`ALL_TOGGLE` fan out the corresponding
power action to exactly the power-capable registry devices; the
aggregate result is success precisely when at least one per-device
task returned success; and executing `ALL_ON` over three devices where
the middle client call raises still contacts all three and aggregates
to success. -/
theorem C4_global_fanout :
    (∀ registry : Registry,
        global_tasks "ALL_ON" registry
          = (registry.filter (fun p => p.2.supports_power.getD true)).map
              (fun p => (p.1, "turn_on"))
        ∧ global_tasks "ALL_OFF" registry
          = (registry.filter (fun p => p.2.supports_power.getD true)).map
              (fun p => (p.1, "turn_off"))
        ∧ global_tasks "ALL_TOGGLE" registry
          = (registry.filter (fun p => p.2.supports_power.getD true)).map
              (fun p => (p.1, "toggle")))
    ∧ (∀ (client : Client) (cmd : String) (registry : Registry) (st : RemoteState)
         (times : List ℚ),
        registry.isEmpty = false → cmd ≠ "NO_DEVICES" → pyStartsWith cmd "ALL_" = true →
        ((execute_govee_command client cmd registry st times).1 = true
          ↔ true ∈ global_results client cmd registry st times))
    ∧ (execute_govee_command clientD2Fails "ALL_ON" registry3 initRemoteState [1, 2, 3]).1
        = true
    ∧ global_results clientD2Fails "ALL_ON" registry3 initRemoteState [1, 2, 3]
        = [true, false, true]
    ∧ (execute_govee_command clientD2Fails "ALL_ON" registry3 initRemoteState [1, 2, 3]).2.2
        = [.turnOn "d1", .turnOn "d2", .turnOn "d3"] := by
  have hts : global_tasks "ALL_ON" registry3
      = [("d1", "turn_on"), ("d2", "turn_on"), ("d3", "turn_on")] := by decide
  have s1 : execute_device_action_safe clientD2Fails 1 "d1" "turn_on" registry3
      initRemoteState
      = (true, (⟨[("d1", 1)], 1, [("d1", true)]⟩ : RemoteState), [.turnOn "d1"]) := by
    rw [safe_turn_on_ok clientD2Fails 1 "d1" registry3 initRemoteState
      (lampNamed "Lamp One") true
      (by rw [show initRemoteState.global_throttle = 0 from rfl]; norm_num)
      (by rw [show initRemoteState.device_throttle = [] from rfl]
          simp only [List.lookup_nil, Option.getD_none]; norm_num)
      (by decide) rfl]
    rfl
  have s2 : execute_device_action_safe clientD2Fails 2 "d2" "turn_on" registry3
      (⟨[("d1", 1)], 1, [("d1", true)]⟩ : RemoteState)
      = (false, (⟨[("d1", 1), ("d2", 2)], 2, [("d1", true)]⟩ : RemoteState),
         [.turnOn "d2"]) := by
    rw [safe_turn_on_exn clientD2Fails 2 "d2" registry3 _ (lampNamed "Lamp Two")
      (by norm_num)
      (by rw [show ((⟨[("d1", 1)], 1, [("d1", true)]⟩ : RemoteState)).device_throttle
            = [("d1", (1 : ℚ))] from rfl]
          rw [List.lookup_cons, show ("d2" == "d1") = false from by decide]
          simp only [List.lookup_nil, Option.getD_none]
          norm_num)
      (by decide) rfl]
    rfl
  have s3 : execute_device_action_safe clientD2Fails 3 "d3" "turn_on" registry3
      (⟨[("d1", 1), ("d2", 2)], 2, [("d1", true)]⟩ : RemoteState)
      = (true, (⟨[("d1", 1), ("d2", 2), ("d3", 3)], 3,
                 [("d1", true), ("d3", true)]⟩ : RemoteState), [.turnOn "d3"]) := by
    rw [safe_turn_on_ok clientD2Fails 3 "d3" registry3 _ (lampNamed "Lamp Three") true
      (by norm_num)
      (by rw [show ((⟨[("d1", 1), ("d2", 2)], 2, [("d1", true)]⟩ : RemoteState)).device_throttle
            = [("d1", (1 : ℚ)), ("d2", (2 : ℚ))] from rfl]
          rw [List.lookup_cons, show ("d3" == "d1") = false from by decide,
            List.lookup_cons, show ("d3" == "d2") = false from by decide]
          simp only [List.lookup_nil, Option.getD_none]
          norm_num)
      (by decide) rfl]
    rfl
  have hrun : run_global_tasks clientD2Fails registry3
      [("d1", "turn_on"), ("d2", "turn_on"), ("d3", "turn_on")] [1, 2, 3] initRemoteState
      = ([true, false, true],
         (⟨[("d1", 1), ("d2", 2), ("d3", 3)], 3, [("d1", true), ("d3", true)]⟩ : RemoteState),
         [.turnOn "d1", .turnOn "d2", .turnOn "d3"]) := by
    simp only [run_global_tasks, List.headD, List.tail_cons, List.tail_nil]
    rw [s1]
    simp only []
    rw [s2]
    simp only []
    rw [s3]
    rfl
  have hglob : execute_global_command clientD2Fails "ALL_ON" registry3 initRemoteState
      [1, 2, 3]
      = (true,
         (⟨[("d1", 1), ("d2", 2), ("d3", 3)], 3, [("d1", true), ("d3", true)]⟩ : RemoteState),
         [.turnOn "d1", .turnOn "d2", .turnOn "d3"]) := by
    rw [execute_global_command]
    simp only [hts]
    rw [show ([("d1", "turn_on"), ("d2", "turn_on"), ("d3", "turn_on")] :
        List (String × String)).isEmpty = false from rfl]
    simp only [Bool.false_eq_true, if_false, hrun]
    rfl
  have hentry : execute_govee_command clientD2Fails "ALL_ON" registry3 initRemoteState
      [1, 2, 3]
      = execute_global_command clientD2Fails "ALL_ON" registry3 initRemoteState [1, 2, 3] :=
    entry_global_path clientD2Fails initRemoteState [1, 2, 3] (by decide) (by decide)
      (by decide)
  refine ⟨?_, ?_, ?_, ?_, ?_⟩
  · intro registry
    exact ⟨global_tasks_eq_filter (fun x => by rw [if_pos rfl]) registry,
      global_tasks_eq_filter (fun x => by rw [if_neg (by decide), if_pos rfl]) registry,
      global_tasks_eq_filter
        (fun x => by rw [if_neg (by decide), if_neg (by decide), if_pos rfl]) registry⟩
  · intro client cmd registry st times hne hnd hall
    rw [entry_global_path client st times hne hnd hall, execute_global_command,
      global_results]
    by_cases ht : (global_tasks cmd registry).isEmpty = true
    · have hnil : global_tasks cmd registry = [] := List.isEmpty_iff.mp ht
      simp only [ht, if_true, hnil, run_global_tasks]
      simp
    · simp only [ht, Bool.false_eq_true, if_false]
      show decide (0 < ((run_global_tasks client registry (global_tasks cmd registry)
          times st).1.count true)) = true ↔ _
      rw [decide_eq_true_eq]
      exact List.count_pos_iff
  · rw [hentry, hglob]
  · rw [global_results, hts, hrun]
  · rw [hentry, hglob]

/-- C4 witness: the aggregation equivalence instantiated at the
three-lamp registry. -/
theorem C4_witness :
    (execute_govee_command clientD2Fails "ALL_ON" registry3 initRemoteState [1, 2, 3]).1
        = true
      ↔ true ∈ global_results clientD2Fails "ALL_ON" registry3 initRemoteState [1, 2, 3] :=
  C4_global_fanout.2.1 clientD2Fails "ALL_ON" registry3 initRemoteState [1, 2, 3]
    (by decide) (by decide) (by decide)

/-! Claim C10 -/

/-- C10: in the `ALL_*` fan-out a registry record lacking the
`supports_power` key entirely is treated as power-capable (the lookup
defaults to true) and receives the power action; only records whose
`supports_power` is explicitly `false` are excluded. -/
theorem C10_missing_supports_power_is_power_capable (registry : Registry) (id : String) :
    ((id, "turn_on") ∈ global_tasks "ALL_ON" registry
      ↔ ∃ info, (id, info) ∈ registry ∧ info.supports_power ≠ some false)
    ∧ ((id, "turn_off") ∈ global_tasks "ALL_OFF" registry
      ↔ ∃ info, (id, info) ∈ registry ∧ info.supports_power ≠ some false)
    ∧ ((id, "toggle") ∈ global_tasks "ALL_TOGGLE" registry
      ↔ ∃ info, (id, info) ∈ registry ∧ info.supports_power ≠ some false) :=
  ⟨mem_global_tasks_iff registry id (fun x => by rw [if_pos rfl]),
   mem_global_tasks_iff registry id (fun x => by rw [if_neg (by decide), if_pos rfl]),
   mem_global_tasks_iff registry id
     (fun x => by rw [if_neg (by decide), if_neg (by decide), if_pos rfl])⟩

end Govee
